import Mathlib

/-
  Verification of the rcv-tracker collection pipeline.

  Shallow embedding of the Python sources under src/rcv_votes/:
  models.py, web_scraper.py, congress_api.py (fault classes only) and
  vote_collector.py.  Network effects are abstracted as oracle functions
  passed explicitly; machine integers are Int, Python str is String,
  exceptions are an explicit Fault type threaded through Except.
-/

namespace RCV

/-- Fault taxonomy mirroring exceptions.py: APIError carries an optional
status code; ValidationError and ScrapingError carry a message.  The
collector only branches on the constructor and the status code. -/
inductive Fault where
  | apiError (code : Option Int)
  | validationError (msg : String)
  | scrapingError (msg : String)
deriving DecidableEq, Repr

/-- Python str.isspace characters used by str.strip, restricted to the
ASCII fragment that occurs in this codebase. -/
def isPySpace (c : Char) : Bool :=
  c = ' ' || c = '\t' || c = '\n' || c = '\r' || c = '\x0b' || c = '\x0c'

/-- Embedding of Python str.strip with no argument. -/
def pyStrip (s : String) : String :=
  ⟨((s.data.dropWhile isPySpace).reverse.dropWhile isPySpace).reverse⟩

/-- Embedding of Python str.lower on the ASCII fragment. -/
def pyLower (s : String) : String := ⟨s.data.map Char.toLower⟩

/-- Embedding of Python str.upper on the ASCII fragment. -/
def pyUpper (s : String) : String := ⟨s.data.map Char.toUpper⟩

/-- Embedding of Python str.zfill for the digit strings this code passes
to it (no sign handling is needed: every argument is a regex digit group). -/
def zfill (s : String) (w : Nat) : String :=
  ⟨List.replicate (w - s.length) '0' ++ s.data⟩

/-- Consume an exact literal at the head of the input, returning the rest. -/
def stripLit : List Char → List Char → Option (List Char)
  | [], l => some l
  | _ :: _, [] => none
  | a :: as, c :: cs => if c = a then stripLit as cs else none

/-- Take exactly four decimal digits, as required by a d4 regex group. -/
def takeDigits4 : List Char → Option (List Char × List Char)
  | a :: b :: c :: d :: rest =>
    if a.isDigit && b.isDigit && c.isDigit && d.isDigit then
      some ([a, b, c, d], rest)
    else none
  | _ => none

/-- Take a maximal nonempty run of decimal digits (a greedy d-plus group;
the literal that follows it in the pattern is never a digit, so regex
backtracking can never shrink the run). -/
def takeDigits1p (l : List Char) : Option (List Char × List Char) :=
  let ds := l.takeWhile Char.isDigit
  if ds.isEmpty then none else some (ds, l.drop ds.length)

/-- Attempt, anchored at the current position, of the source pattern
used by both URL derivations:
https colon slash slash clerk.house.gov slash evs slash (d4) slash roll (d+) dot xml. -/
def matchEvsAt (l : List Char) : Option (String × String) :=
  match stripLit "https://clerk.house.gov/evs/".data l with
  | none => none
  | some l1 =>
    match takeDigits4 l1 with
    | none => none
    | some (y, l2) =>
      match stripLit "/roll".data l2 with
      | none => none
      | some l3 =>
        match takeDigits1p l3 with
        | none => none
        | some (n, l4) =>
          match stripLit ".xml".data l4 with
          | none => none
          | some _ => some (⟨y⟩, ⟨n⟩)

/-- Leftmost search for the evs pattern, as performed by re.search. -/
def searchEvs : List Char → Option (String × String)
  | [] => none
  | c :: t =>
    match matchEvsAt (c :: t) with
    | some r => some r
    | none => searchEvs t

/-- Embedding of ClerkHouseGovScraper._generate_rcv_url: the strict
derivation that raises ValidationError when the URL is empty or the
pattern does not match. -/
def generate_rcv_url (u : String) : Except Fault String :=
  if u = "" then
    .error (.validationError "Source data URL must be a non-empty string")
  else
    match searchEvs u.data with
    | some (y, n) => .ok ("https://clerk.house.gov/Votes/" ++ y ++ zfill n 3)
    | none => .error (.validationError "Invalid source data URL format")

/-- Embedding of VoteCollector._generate_roll_call_url: the orchestrator
derivation that falls back to returning the source URL unchanged when the
pattern does not match (its try block raises nothing in this model). -/
def generate_roll_call_url (u : String) : String :=
  match searchEvs u.data with
  | some (y, n) => "https://clerk.house.gov/Votes/" ++ y ++ zfill n 3
  | none => u

/-- Greedy match of a one-or-two digit regex group with backtracking:
try two digits first, fall back to one, then hand the group and the rest
of the input to the continuation. -/
def take2or1 (l : List Char) (k : List Char → List Char → Option α) : Option α :=
  match l with
  | [] => none
  | [a] => if a.isDigit then k [a] [] else none
  | a :: b :: t =>
    if a.isDigit then
      if b.isDigit then
        match k [a, b] t with
        | some r => some r
        | none => k [a] (b :: t)
      else k [a] (b :: t)
    else none

/-- Tail of date pattern zero after the day group: a dash, three letters,
a dash, and four digits, as in 3-Mar-2025. -/
def matchDashMonY (l : List Char) : Option (String × String) :=
  match l with
  | c0 :: m1 :: m2 :: m3 :: c4 :: y1 :: y2 :: y3 :: y4 :: _ =>
    if c0 = '-' && m1.isAlpha && m2.isAlpha && m3.isAlpha && c4 = '-' &&
       y1.isDigit && y2.isDigit && y3.isDigit && y4.isDigit then
      some (⟨[m1, m2, m3]⟩, ⟨[y1, y2, y3, y4]⟩)
    else none
  | _ => none

/-- Anchored attempt of date pattern zero: (d one-or-two) dash (letters three)
dash (d4), with the greedy day group backtracking from two digits to one. -/
def matchDMonYAt (l : List Char) : Option (String × String × String) :=
  match l with
  | [] => none
  | [_] => none
  | c1 :: c2 :: rest =>
    if c1.isDigit then
      if c2.isDigit then
        match matchDashMonY rest with
        | some (m, y) => some (⟨[c1, c2]⟩, m, y)
        | none =>
          match matchDashMonY (c2 :: rest) with
          | some (m, y) => some (⟨[c1]⟩, m, y)
          | none => none
      else
        match matchDashMonY (c2 :: rest) with
        | some (m, y) => some (⟨[c1]⟩, m, y)
        | none => none
    else none

/-- Leftmost search for date pattern zero. -/
def searchDMonY : List Char → Option (String × String × String)
  | [] => none
  | c :: t =>
    match matchDMonYAt (c :: t) with
    | some r => some r
    | none => searchDMonY t

/-- Tail of date pattern one after the day group: a slash and four digits. -/
def matchSlashYear (l : List Char) : Option String :=
  match l with
  | c :: y1 :: y2 :: y3 :: y4 :: _ =>
    if c = '/' && y1.isDigit && y2.isDigit && y3.isDigit && y4.isDigit then
      some ⟨[y1, y2, y3, y4]⟩
    else none
  | _ => none

/-- Tail of date pattern one after the month group: a slash, the day
group, a slash and four digits. -/
def matchSlashD12Year (l : List Char) (m : List Char) :
    Option (String × String × String) :=
  match l with
  | c :: rest2 =>
    if c = '/' then
      take2or1 rest2 (fun d rest3 =>
        match matchSlashYear rest3 with
        | some y => some (⟨m⟩, ⟨d⟩, y)
        | none => none)
    else none
  | [] => none

/-- Anchored attempt of date pattern one: (d one-or-two) slash
(d one-or-two) slash (d4), as in 3-15-2025 written with slashes. -/
def matchMDYAt (l : List Char) : Option (String × String × String) :=
  take2or1 l (fun m rest1 => matchSlashD12Year rest1 m)

/-- Leftmost search for date pattern one. -/
def searchMDY : List Char → Option (String × String × String)
  | [] => none
  | c :: t =>
    match matchMDYAt (c :: t) with
    | some r => some r
    | none => searchMDY t

/-- Anchored attempt of date pattern two: (d4) dash (d one-or-two) dash
(d one-or-two), as in 2025-03-15. -/
def matchYMDAt (l : List Char) : Option (String × String × String) :=
  match l with
  | y1 :: y2 :: y3 :: y4 :: rest =>
    if y1.isDigit && y2.isDigit && y3.isDigit && y4.isDigit then
      match rest with
      | c :: rest2 =>
        if c = '-' then
          take2or1 rest2 (fun m rest3 =>
            match rest3 with
            | c2 :: rest4 =>
              if c2 = '-' then
                take2or1 rest4 (fun d _ => some (⟨[y1, y2, y3, y4]⟩, ⟨m⟩, ⟨d⟩))
              else none
            | [] => none)
        else none
      | [] => none
    else none
  | _ => none

/-- Leftmost search for date pattern two. -/
def searchYMD : List Char → Option (String × String × String)
  | [] => none
  | c :: t =>
    match matchYMDAt (c :: t) with
    | some r => some r
    | none => searchYMD t

/-- Month abbreviation table from _extract_date, keyed by the lowercased
three-letter group. -/
def monthMap (s : String) : Option String :=
  if s = "jan" then some "01"
  else if s = "feb" then some "02"
  else if s = "mar" then some "03"
  else if s = "apr" then some "04"
  else if s = "may" then some "05"
  else if s = "jun" then some "06"
  else if s = "jul" then some "07"
  else if s = "aug" then some "08"
  else if s = "sep" then some "09"
  else if s = "oct" then some "10"
  else if s = "nov" then some "11"
  else if s = "dec" then some "12"
  else none

/-- Gregorian leap year rule used by the calendar validation. -/
def isLeapYear (y : Nat) : Bool :=
  y % 4 = 0 && (y % 100 ≠ 0 || y % 400 = 0)

/-- Number of days in a month of a given year. -/
def daysInMonth (y m : Nat) : Nat :=
  if m = 2 then (if isLeapYear y then 29 else 28)
  else if m = 4 || m = 6 || m = 9 || m = 11 then 30
  else 31

/-- Numeric value of a decimal digit character. -/
def digitVal (c : Char) : Nat := c.toNat - 48

/-- Numeric value of a decimal digit string. -/
def natOfDigits (l : List Char) : Nat :=
  l.foldl (fun acc c => 10 * acc + digitVal c) 0

/-- Embedding of the datetime.strptime check performed on the candidate
strings this code formats, which always have the ten character shape
d4 dash d2 dash d2: the triple must be a real calendar date with year at
least 1 (the four digit year bounds it by 9999 on its own). -/
def strptime_valid (s : String) : Bool :=
  match s.data with
  | [a, b, c, d, e, f, g, h, i, j] =>
    a.isDigit && b.isDigit && c.isDigit && d.isDigit && e = '-' &&
    f.isDigit && g.isDigit && h = '-' && i.isDigit && j.isDigit &&
    (let y := natOfDigits [a, b, c, d]
     let mo := natOfDigits [f, g]
     let dd := natOfDigits [i, j]
     1 ≤ y && 1 ≤ mo && mo ≤ 12 && 1 ≤ dd && dd ≤ daysInMonth y mo)
  | _ => false

/-- Third stage of _extract_date: date pattern two, else the empty string. -/
def extract_date_p2 (html : String) : String :=
  match searchYMD html.data with
  | some (y, m, d) =>
    if strptime_valid (y ++ "-" ++ zfill m 2 ++ "-" ++ zfill d 2) then
      y ++ "-" ++ zfill m 2 ++ "-" ++ zfill d 2
    else ""
  | none => ""

/-- Second stage of _extract_date: date pattern one, else fall through. -/
def extract_date_p1 (html : String) : String :=
  match searchMDY html.data with
  | some (m, d, y) =>
    if strptime_valid (y ++ "-" ++ zfill m 2 ++ "-" ++ zfill d 2) then
      y ++ "-" ++ zfill m 2 ++ "-" ++ zfill d 2
    else extract_date_p2 html
  | none => extract_date_p2 html

/-- Embedding of ClerkHouseGovScraper._extract_date: try the three date
patterns in order; a candidate that fails the month table or the calendar
validation falls through to the next pattern; no pattern gives the empty
string.  Only the leftmost candidate of each pattern is ever considered,
exactly as in the source. -/
def extract_date (html : String) : String :=
  match searchDMonY html.data with
  | some (d, mon, y) =>
    match monthMap (pyLower mon) with
    | some mn =>
      if strptime_valid (y ++ "-" ++ mn ++ "-" ++ zfill d 2) then
        y ++ "-" ++ mn ++ "-" ++ zfill d 2
      else extract_date_p1 html
    | none => extract_date_p1 html
  | none => extract_date_p1 html

/-- Characters excluded from the capture group of the question and title
patterns: newline, carriage return and the opening angle bracket. -/
def isExcludedQ (c : Char) : Bool :=
  c = '\n' || c = '\r' || c = '<'

/-- Case-insensitive literal match: consume the lowercased label against
the input, comparing each input character after lowercasing. -/
def stripLabelCI : List Char → List Char → Option (List Char)
  | [], l => some l
  | _ :: _, [] => none
  | a :: as, c :: cs => if c.toLower = a then stripLabelCI as cs else none

/-- Capture group of the question and title patterns: one or more
characters other than newline, carriage return and angle bracket, greedy. -/
def matchGroupRun (l : List Char) : Option (List Char) :=
  match l with
  | [] => none
  | c :: _ =>
    if isExcludedQ c then none
    else some (l.takeWhile (fun x => !(isExcludedQ x)))

/-- Greedy whitespace run followed by the capture group, with the regex
backtracking order: prefer consuming another whitespace character, fall
back to starting the group at the current character. -/
def matchWsGroup : List Char → Option (List Char)
  | [] => none
  | c :: rest =>
    if isPySpace c then
      match matchWsGroup rest with
      | some g => some g
      | none => matchGroupRun (c :: rest)
    else matchGroupRun (c :: rest)

/-- Anchored attempt of a labeled pattern: the case-insensitive literal,
optional whitespace, then the capture group. -/
def matchLabeledAt (label : List Char) (l : List Char) : Option (List Char) :=
  match stripLabelCI label l with
  | some rest => matchWsGroup rest
  | none => none

/-- Leftmost search for a labeled pattern. -/
def searchLabeled (label : List Char) : List Char → Option (List Char)
  | [] => none
  | c :: t =>
    match matchLabeledAt label (c :: t) with
    | some g => some g
    | none => searchLabeled label t

/-- Pattern cascade shared by _extract_question and _extract_bill_title:
for each pattern in order, search; on a match whose stripped group is
nonempty return it, otherwise move to the next pattern; else empty. -/
def tryLabels (labels : List (List Char)) (html : String) : String :=
  match labels with
  | [] => ""
  | lab :: rest =>
    match searchLabeled lab html.data with
    | some g =>
      let q := pyStrip ⟨g⟩
      if q = "" then tryLabels rest html else q
    | none => tryLabels rest html

/-- Embedding of ClerkHouseGovScraper._extract_question with its four
case-insensitive pattern variants. -/
def extract_question (html : String) : String :=
  tryLabels ["question:".data, "<b>question:</b>".data,
             "question:".data, "question".data] html

/-- Embedding of ClerkHouseGovScraper._extract_bill_title with its five
case-insensitive pattern variants. -/
def extract_bill_title (html : String) : String :=
  tryLabels ["bill title:".data, "<b>bill title:</b>".data,
             "bill title:".data, "bill title".data, "title:".data] html

/-- Scraped vote details record from models.py. -/
structure ScrapedVoteDetails where
  question : String
  bill_title : String
  date : String
deriving DecidableEq, Repr

/-- Shape check of the anchored date regex in models.py and in the start
date merge: exactly four digits, a dash, two digits, a dash, two digits. -/
def dateShapeOK (s : String) : Bool :=
  match s.data with
  | [a, b, c, d, e, f, g, h, i, j] =>
    a.isDigit && b.isDigit && c.isDigit && d.isDigit && e = '-' &&
    f.isDigit && g.isDigit && h = '-' && i.isDigit && j.isDigit
  | _ => false

/-- Validating constructor of ScrapedVoteDetails embedding its post init
hook: the type system supplies the string checks, the date must match the
anchored date regex. -/
def mkScrapedVoteDetails (q b d : String) : Except Fault ScrapedVoteDetails :=
  if dateShapeOK d then .ok ⟨q, b, d⟩
  else .error (.validationError "Date must be in YYYY-MM-DD format")

/-- Embedding of ClerkHouseGovScraper.extract_vote_details over a page
fetch oracle: derive the page URL, fetch it, run the three extractors;
any fault before extraction leaves all three fields empty; an empty date
is replaced by the sentinel 1900-01-01; the function is total. -/
def extract_vote_details (fetchPage : String → Except Fault String)
    (url : String) : ScrapedVoteDetails :=
  let r : Except Fault (String × String × String) :=
    match generate_rcv_url url with
    | .error e => .error e
    | .ok rcv =>
      match fetchPage rcv with
      | .error e => .error e
      | .ok page => .ok (extract_question page, extract_bill_title page, extract_date page)
  match r with
  | .error _ => ⟨"", "", "1900-01-01"⟩
  | .ok (q, b, d) => ⟨q, b, if d = "" then "1900-01-01" else d⟩

/-- Raw member vote data from congress_api parsing, models.py APIVoteData. -/
structure APIVoteData where
  congress : Int
  identifier : Int
  legislation_number : String
  legislation_type : String
  legislation_url : String
  bio_guide_id : String
  first_name : String
  last_name : String
  vote_cast : String
  vote_party : String
  vote_state : String
  result : String
  roll_call_number : Int
  session_number : Int
  source_data_url : String
  start_date : String
  update_date : String
  vote_question : String
  vote_type : String
deriving DecidableEq, Repr

/-- Derived legislation field: concatenation of type and number when both
are nonempty, else the Non-Legislative sentinel. -/
def APIVoteData.legislation (v : APIVoteData) : String :=
  if v.legislation_type != "" && v.legislation_number != "" then
    v.legislation_type ++ v.legislation_number
  else "Non-Legislative"

/-- Member match predicate: case-insensitive last name, state compared
after uppercasing. -/
def APIVoteData.validate_for_member (v : APIVoteData)
    (targetLastName targetState : String) : Bool :=
  pyLower v.last_name == pyLower targetLastName &&
  pyUpper v.vote_state == pyUpper targetState

/-- Finished vote record, models.py VoteRecord. -/
structure VoteRecord where
  congress : Int
  date : String
  roll_call_number : Int
  legislation : String
  vote_cast : String
  question : String
  bill_title : String
  roll_call_vote_url : String
deriving DecidableEq, Repr

/-- Validating constructor of VoteRecord embedding its post init hook, in
source order: positive congress, anchored date shape, positive roll call
number, nonempty vote cast; the remaining string checks are supplied by
the type system. -/
def mkVoteRecord (congress : Int) (date : String) (roll : Int)
    (leg vc q bt url : String) : Except Fault VoteRecord :=
  if congress < 1 then
    .error (.validationError "Congress number must be a positive integer")
  else if !(dateShapeOK date) then
    .error (.validationError "Date must be in YYYY-MM-DD format")
  else if roll < 1 then
    .error (.validationError "Roll call number must be a positive integer")
  else if vc = "" then
    .error (.validationError "Vote cast must be a non-empty string")
  else .ok ⟨congress, date, roll, leg, vc, q, bt, url⟩

/-- Search criteria record, models.py MemberSearchCriteria. -/
structure MemberSearchCriteria where
  last_name : String
  state : String
  congress_numbers : List Int
deriving DecidableEq, Repr

/-- Validating constructor of MemberSearchCriteria embedding its post
init hook: the checks run on the raw inputs, and only afterwards are last
name and state normalized by strip and strip plus upper. -/
def mkMemberSearchCriteria (ln st : String) (cs : List Int) :
    Except Fault MemberSearchCriteria :=
  if ln = "" then
    .error (.validationError "Last name must be a non-empty string")
  else if st = "" || st.length ≠ 2 then
    .error (.validationError "State must be a 2-letter abbreviation")
  else if cs = [] then
    .error (.validationError "Congress numbers must be a non-empty list")
  else if cs.any (fun c => decide (c < 1)) then
    .error (.validationError "All congress numbers must be positive integers")
  else .ok ⟨pyStrip ln, pyUpper (pyStrip st), cs⟩

/-- Truthy cap test from the collector: Python treats a None or zero
max_votes as no cap at all. -/
def capReached (maxVotes : Option Nat) (n : Nat) : Bool :=
  match maxVotes with
  | none => false
  | some m => decide (m ≠ 0) && decide (m ≤ n)

/-- Residual cap passed to the next level down: None when the cap is
falsy, else the cap minus the records already accumulated. -/
def remaining (maxVotes : Option Nat) (n : Nat) : Option Nat :=
  match maxVotes with
  | none => none
  | some m => if m = 0 then none else some (m - n)

/-- Embedding of VoteCollector._find_member_vote: first record matching
the criteria, if any. -/
def findMemberVote (records : List APIVoteData) (lastName state : String) :
    Option APIVoteData :=
  records.find? (fun v => v.validate_for_member lastName state)

/-- Date merge from the collector loop body: keep the scraped date unless
it is the fallback sentinel, in which case take the part of the start
date before the first T when it has the anchored date shape. -/
def mergeDate (scrapedDate startDate : String) : String :=
  if scrapedDate = "1900-01-01" then
    let apiDate : String := ⟨startDate.data.takeWhile (fun c => c ≠ 'T')⟩
    if dateShapeOK apiDate then apiDate else scrapedDate
  else scrapedDate

/-- Merge step of the collector loop body, lines 155 to 186 of
vote_collector.py: scrape the details of the matched record, prefer the
scraped question when nonempty, merge the date, derive the display URL
and construct the finished record through its validating constructor. -/
def mergeRecord (scrape : String → ScrapedVoteDetails) (mv : APIVoteData) :
    Except Fault VoteRecord :=
  let sd := scrape mv.source_data_url
  let q := if sd.question = "" then mv.vote_question else sd.question
  let d := mergeDate sd.date mv.start_date
  let url := generate_roll_call_url mv.source_data_url
  mkVoteRecord mv.congress d mv.roll_call_number mv.legislation mv.vote_cast
    q sd.bill_title url

/-- State of the session scan loop: accumulated records, next vote number
to attempt, and the consecutive failure counter. -/
structure SessState where
  votes : List VoteRecord
  voteNumber : Nat
  failures : Nat
deriving DecidableEq, Repr

/-- Embedding of the while loop of VoteCollector._collect_session_votes
over a fetch oracle and a scrape oracle.  The loop is unbounded in the
source, so the model takes explicit fuel, one unit per iteration; none
means the fuel ran out before the loop finished.  Per iteration: stop at
five consecutive failures or at a truthy reached cap; an APIError from
the fetch, whatever its status code, bumps the counter and the vote
number and breaks at five; any other fault aborts the whole call; on a
successful fetch the matched record, if any, is merged and appended, the
counter resets and the vote number advances. -/
def collectSessionLoop (fetch : Int → Nat → Nat → Except Fault (List APIVoteData))
    (scrape : String → ScrapedVoteDetails) (congress : Int) (session : Nat)
    (lastName state : String) (maxVotes : Option Nat) :
    Nat → SessState → Option (Except Fault (List VoteRecord))
  | 0, _ => none
  | fuel + 1, st =>
    if 5 ≤ st.failures then some (.ok st.votes)
    else if capReached maxVotes st.votes.length then some (.ok st.votes)
    else
      match fetch congress session st.voteNumber with
      | .error (.apiError _) =>
        if 5 ≤ st.failures + 1 then some (.ok st.votes)
        else collectSessionLoop fetch scrape congress session lastName state
          maxVotes fuel ⟨st.votes, st.voteNumber + 1, st.failures + 1⟩
      | .error f => some (.error f)
      | .ok records =>
        match findMemberVote records lastName state with
        | none =>
          collectSessionLoop fetch scrape congress session lastName state
            maxVotes fuel ⟨st.votes, st.voteNumber + 1, 0⟩
        | some mv =>
          match mergeRecord scrape mv with
          | .error f => some (.error f)
          | .ok rec =>
            collectSessionLoop fetch scrape congress session lastName state
              maxVotes fuel ⟨st.votes ++ [rec], st.voteNumber + 1, 0⟩

/-- Embedding of the session for loop of _collect_congress_votes: iterate
the fixed session list, stopping early at a truthy reached cap, passing
the residual cap down, aborting on a session fault. -/
def collectCongressLoop (fetch : Int → Nat → Nat → Except Fault (List APIVoteData))
    (scrape : String → ScrapedVoteDetails) (congress : Int)
    (lastName state : String) (maxVotes : Option Nat) (fuel : Nat) :
    List Nat → List VoteRecord → Option (Except Fault (List VoteRecord))
  | [], acc => some (.ok acc)
  | s :: rest, acc =>
    if capReached maxVotes acc.length then some (.ok acc)
    else
      match collectSessionLoop fetch scrape congress s lastName state
          (remaining maxVotes acc.length) fuel ⟨[], 1, 0⟩ with
      | none => none
      | some (.error f) => some (.error f)
      | some (.ok sv) =>
        collectCongressLoop fetch scrape congress lastName state maxVotes fuel
          rest (acc ++ sv)

/-- Embedding of VoteCollector._collect_congress_votes: the sessions are
the fixed ordered list one then two. -/
def collect_congress_votes (fetch : Int → Nat → Nat → Except Fault (List APIVoteData))
    (scrape : String → ScrapedVoteDetails) (congress : Int)
    (lastName state : String) (maxVotes : Option Nat) (fuel : Nat) :
    Option (Except Fault (List VoteRecord)) :=
  collectCongressLoop fetch scrape congress lastName state maxVotes fuel [1, 2] []

/-- Truncation applied when the top level reaches the cap, the slice of
all accumulated votes up to max_votes. -/
def truncateTo (maxVotes : Option Nat) (l : List VoteRecord) : List VoteRecord :=
  match maxVotes with
  | none => l
  | some m => l.take m

/-- Embedding of the congress for loop of collect_member_votes: iterate
the requested congresses, stop early at a truthy reached cap, pass the
residual cap down, truncate and stop as soon as the accumulated list
reaches a truthy cap, abort on a congress fault discarding everything. -/
def collectAllLoop (fetch : Int → Nat → Nat → Except Fault (List APIVoteData))
    (scrape : String → ScrapedVoteDetails) (lastName state : String)
    (maxVotes : Option Nat) (fuel : Nat) :
    List Int → List VoteRecord → Option (Except Fault (List VoteRecord))
  | [], acc => some (.ok acc)
  | c :: rest, acc =>
    if capReached maxVotes acc.length then some (.ok acc)
    else
      match collect_congress_votes fetch scrape c lastName state
          (remaining maxVotes acc.length) fuel with
      | none => none
      | some (.error f) => some (.error f)
      | some (.ok cv) =>
        if capReached maxVotes (acc ++ cv).length then
          some (.ok (truncateTo maxVotes (acc ++ cv)))
        else collectAllLoop fetch scrape lastName state maxVotes fuel rest (acc ++ cv)

/-- Embedding of VoteCollector.collect_member_votes: run the congress
loop from an empty accumulator; a fault reaching this boundary is
re-raised, so the caller sees either a full list or a fault and never a
partial list. -/
def collect_member_votes (fetch : Int → Nat → Nat → Except Fault (List APIVoteData))
    (scrape : String → ScrapedVoteDetails) (crit : MemberSearchCriteria)
    (maxVotes : Option Nat) (fuel : Nat) :
    Option (Except Fault (List VoteRecord)) :=
  collectAllLoop fetch scrape crit.last_name crit.state maxVotes fuel
    crit.congress_numbers []

/-! Concrete data used by witnesses of theorems with hypotheses. -/

/-- Sample raw member record matching the sample criteria. -/
def wMember : APIVoteData :=
  { congress := 118, identifier := 7, legislation_number := "55",
    legislation_type := "HR", legislation_url := "", bio_guide_id := "D000001",
    first_name := "Jane", last_name := "Doe", vote_cast := "Yea",
    vote_party := "D", vote_state := "TX", result := "Passed",
    roll_call_number := 1, session_number := 1,
    source_data_url := "https://clerk.house.gov/evs/2023/roll001.xml",
    start_date := "2023-01-03T12:28:00-05:00", update_date := "2023-01-04",
    vote_question := "On Passage", vote_type := "Yea-And-Nay" }

/-- Sample fetch oracle: votes one and two exist, later numbers are the
not found fault. -/
def wFetch : Int → Nat → Nat → Except Fault (List APIVoteData) :=
  fun _ _ n => if n ≤ 2 then .ok [wMember] else .error (.apiError (some 404))

/-- Sample scrape oracle that found nothing. -/
def wScrape : String → ScrapedVoteDetails :=
  fun _ => { question := "", bill_title := "", date := "1900-01-01" }

/-- Sample search criteria. -/
def wCrit : MemberSearchCriteria :=
  { last_name := "Doe", state := "TX", congress_numbers := [118] }

/-- Finished record produced from wMember with wScrape. -/
def wRecord : VoteRecord :=
  { congress := 118, date := "2023-01-03", roll_call_number := 1,
    legislation := "HR55", vote_cast := "Yea", question := "On Passage",
    bill_title := "", roll_call_vote_url := "https://clerk.house.gov/Votes/2023001" }

/-- Uncapped collection output for wFetch, wScrape and wCrit: two records
per session across the two sessions of the single congress. -/
def wList : List VoteRecord := [wRecord, wRecord, wRecord, wRecord]

/-! Helper lemmas shared by the claim theorems. -/

theorem capReached_some_zero (n : Nat) : capReached (some 0) n = false := by
  simp [capReached]

theorem remaining_some_zero (n : Nat) : remaining (some 0) n = none := by
  simp [remaining]

theorem capReached_none (n : Nat) : capReached none n = false := rfl

theorem remaining_none (n : Nat) : remaining none n = none := rfl

theorem capReached_zero (mv : Option Nat) : capReached mv 0 = false := by
  cases mv with
  | none => rfl
  | some m => simp [capReached]

/-- Congress loop with a zero cap runs exactly like the uncapped loop. -/
theorem collectAllLoop_zero (fetch : Int → Nat → Nat → Except Fault (List APIVoteData))
    (scrape : String → ScrapedVoteDetails) (ln stt : String) (fuel : Nat) :
    ∀ (cs : List Int) (acc : List VoteRecord),
      collectAllLoop fetch scrape ln stt (some 0) fuel cs acc =
        collectAllLoop fetch scrape ln stt none fuel cs acc := by
  intro cs
  induction cs with
  | nil => intro acc; rfl
  | cons c rest ih =>
    intro acc
    simp only [collectAllLoop, capReached_some_zero, remaining_some_zero,
      capReached_none, remaining_none, Bool.false_eq_true, if_false]
    cases collect_congress_votes fetch scrape c ln stt none fuel with
    | none => rfl
    | some r =>
      cases r with
      | error f => rfl
      | ok cv => exact ih (acc ++ cv)

theorem isDigit_not_isAlpha (c : Char) (h : c.isDigit = true) : c.isAlpha = false := by
  simp only [Char.isDigit, Char.isAlpha, Char.isUpper, Char.isLower, decide_eq_true_eq,
    Bool.and_eq_true, Bool.or_eq_false_iff, Bool.and_eq_false_iff,
    decide_eq_false_iff_not] at h ⊢
  obtain ⟨h1, h2⟩ := h
  have h1n : 48 ≤ c.val.toNat := h1
  have h2n : c.val.toNat ≤ 57 := h2
  constructor
  · left; intro hc; have : (65 : Nat) ≤ c.val.toNat := hc; omega
  · left; intro hc; have : (97 : Nat) ≤ c.val.toNat := hc; omega

theorem isDigit_ne_dash (c : Char) (h : c.isDigit = true) : c ≠ '-' := by
  intro he
  rw [he] at h
  exact absurd h (by decide)

theorem isDigit_ne_slash (c : Char) (h : c.isDigit = true) : c ≠ '/' := by
  intro he
  rw [he] at h
  exact absurd h (by decide)

/-- Pattern zero tail cannot match a text without letters. -/
theorem matchDashMonY_none_of_no_alpha (l : List Char)
    (h : ∀ c ∈ l, c.isAlpha = false) : matchDashMonY l = none := by
  unfold matchDashMonY
  split
  · next c0 m1 m2 m3 c4 y1 y2 y3 y4 rest =>
    have hm1 : m1.isAlpha = false := h m1 (by simp)
    simp [hm1]
  · rfl

/-- Pattern zero tail cannot match a text without dashes. -/
theorem matchDashMonY_none_of_no_dash (l : List Char)
    (h : ∀ c ∈ l, c ≠ '-') : matchDashMonY l = none := by
  unfold matchDashMonY
  split
  · next c0 m1 m2 m3 c4 y1 y2 y3 y4 rest =>
    have hc0 : c0 ≠ '-' := h c0 (by simp)
    simp [hc0]
  · rfl

/-- Pattern zero cannot match at a position in a text without letters. -/
theorem matchDMonYAt_none_of_no_alpha (l : List Char)
    (h : ∀ c ∈ l, c.isAlpha = false) : matchDMonYAt l = none := by
  unfold matchDMonYAt
  split
  · rfl
  · rfl
  · next c1 c2 rest =>
    have h1 : matchDashMonY rest = none :=
      matchDashMonY_none_of_no_alpha rest (fun c hc => h c (by simp [hc]))
    have h2 : matchDashMonY (c2 :: rest) = none :=
      matchDashMonY_none_of_no_alpha (c2 :: rest) (fun c hc => h c (by
        rcases List.mem_cons.mp hc with hc2 | hc2 <;> simp [hc2]))
    simp [h1, h2]

/-- Pattern zero cannot match at a position in a text without dashes. -/
theorem matchDMonYAt_none_of_no_dash (l : List Char)
    (h : ∀ c ∈ l, c ≠ '-') : matchDMonYAt l = none := by
  unfold matchDMonYAt
  split
  · rfl
  · rfl
  · next c1 c2 rest =>
    have h1 : matchDashMonY rest = none :=
      matchDashMonY_none_of_no_dash rest (fun c hc => h c (by simp [hc]))
    have h2 : matchDashMonY (c2 :: rest) = none :=
      matchDashMonY_none_of_no_dash (c2 :: rest) (fun c hc => h c (by
        rcases List.mem_cons.mp hc with hc2 | hc2 <;> simp [hc2]))
    simp [h1, h2]

/-- Pattern zero search fails on a text without letters. -/
theorem searchDMonY_none_of_no_alpha :
    ∀ l : List Char, (∀ c ∈ l, c.isAlpha = false) → searchDMonY l = none := by
  intro l
  induction l with
  | nil => intro _; rfl
  | cons c t ih =>
    intro h
    unfold searchDMonY
    rw [matchDMonYAt_none_of_no_alpha (c :: t) h]
    exact ih (fun x hx => h x (by simp [hx]))

/-- Pattern zero search fails on a text without dashes. -/
theorem searchDMonY_none_of_no_dash :
    ∀ l : List Char, (∀ c ∈ l, c ≠ '-') → searchDMonY l = none := by
  intro l
  induction l with
  | nil => intro _; rfl
  | cons c t ih =>
    intro h
    unfold searchDMonY
    rw [matchDMonYAt_none_of_no_dash (c :: t) h]
    exact ih (fun x hx => h x (by simp [hx]))

/-- Pattern one tail cannot match when no slash can start it. -/
theorem matchSlashD12Year_none_of_no_slash (l m : List Char)
    (h : ∀ c ∈ l, c ≠ '/') : matchSlashD12Year l m = none := by
  unfold matchSlashD12Year
  split
  · next c rest2 => rw [if_neg (h c (by simp))]
  · rfl

/-- Pattern one cannot match at a position in a text without slashes. -/
theorem matchMDYAt_none_of_no_slash (l : List Char)
    (h : ∀ c ∈ l, c ≠ '/') : matchMDYAt l = none := by
  unfold matchMDYAt take2or1
  split
  · rfl
  · next a =>
    dsimp only
    split
    · exact matchSlashD12Year_none_of_no_slash [] [a] (by simp)
    · rfl
  · next a b t =>
    have h1 : matchSlashD12Year t [a, b] = none :=
      matchSlashD12Year_none_of_no_slash t [a, b] (fun c hc => h c (by simp [hc]))
    have h2 : matchSlashD12Year (b :: t) [a] = none :=
      matchSlashD12Year_none_of_no_slash (b :: t) [a] (fun c hc => h c (by
        rcases List.mem_cons.mp hc with hc2 | hc2 <;> simp [hc2]))
    dsimp only
    split
    · split
      · simp [h1, h2]
      · exact h2
    · rfl

/-- Pattern one search fails on a text without slashes. -/
theorem searchMDY_none_of_no_slash :
    ∀ l : List Char, (∀ c ∈ l, c ≠ '/') → searchMDY l = none := by
  intro l
  induction l with
  | nil => intro _; rfl
  | cons c t ih =>
    intro h
    unfold searchMDY
    rw [matchMDYAt_none_of_no_slash (c :: t) h]
    exact ih (fun x hx => h x (by simp [hx]))

/-- A successful anchored attempt makes the search return it at once. -/
theorem searchDMonY_of_matchAt (l : List Char) (r : String × String × String)
    (h : matchDMonYAt l = some r) : searchDMonY l = some r := by
  cases l with
  | nil => exact absurd h (by simp [matchDMonYAt])
  | cons c t =>
    unfold searchDMonY
    rw [h]

/-- A successful anchored attempt makes the search return it at once. -/
theorem searchMDY_of_matchAt (l : List Char) (r : String × String × String)
    (h : matchMDYAt l = some r) : searchMDY l = some r := by
  cases l with
  | nil => exact absurd h (by simp [matchMDYAt, take2or1])
  | cons c t =>
    unfold searchMDY
    rw [h]

/-- A successful anchored attempt makes the search return it at once. -/
theorem searchYMD_of_matchAt (l : List Char) (r : String × String × String)
    (h : matchYMDAt l = some r) : searchYMD l = some r := by
  cases l with
  | nil => exact absurd h (by simp [matchYMDAt])
  | cons c t =>
    unfold searchYMD
    rw [h]

/-- Pattern zero tail succeeds on its exact shape. -/
theorem matchDashMonY_pos (m1 m2 m3 y1 y2 y3 y4 : Char) (rest : List Char)
    (hm1 : m1.isAlpha = true) (hm2 : m2.isAlpha = true) (hm3 : m3.isAlpha = true)
    (hy1 : y1.isDigit = true) (hy2 : y2.isDigit = true) (hy3 : y3.isDigit = true)
    (hy4 : y4.isDigit = true) :
    matchDashMonY ('-' :: m1 :: m2 :: m3 :: '-' :: y1 :: y2 :: y3 :: y4 :: rest) =
      some (⟨[m1, m2, m3]⟩, ⟨[y1, y2, y3, y4]⟩) := by
  unfold matchDashMonY
  simp [hm1, hm2, hm3, hy1, hy2, hy3, hy4]

/-- Pattern zero succeeds at a one digit day. -/
theorem matchDMonYAt_day1 (a m1 m2 m3 y1 y2 y3 y4 : Char) (rest : List Char)
    (ha : a.isDigit = true)
    (hm1 : m1.isAlpha = true) (hm2 : m2.isAlpha = true) (hm3 : m3.isAlpha = true)
    (hy1 : y1.isDigit = true) (hy2 : y2.isDigit = true) (hy3 : y3.isDigit = true)
    (hy4 : y4.isDigit = true) :
    matchDMonYAt (a :: '-' :: m1 :: m2 :: m3 :: '-' :: y1 :: y2 :: y3 :: y4 :: rest) =
      some (⟨[a]⟩, ⟨[m1, m2, m3]⟩, ⟨[y1, y2, y3, y4]⟩) := by
  unfold matchDMonYAt
  dsimp only
  rw [if_pos ha, if_neg (by decide : ¬ ('-').isDigit = true),
    matchDashMonY_pos m1 m2 m3 y1 y2 y3 y4 rest hm1 hm2 hm3 hy1 hy2 hy3 hy4]

/-- Pattern zero succeeds at a two digit day. -/
theorem matchDMonYAt_day2 (a b m1 m2 m3 y1 y2 y3 y4 : Char) (rest : List Char)
    (ha : a.isDigit = true) (hb : b.isDigit = true)
    (hm1 : m1.isAlpha = true) (hm2 : m2.isAlpha = true) (hm3 : m3.isAlpha = true)
    (hy1 : y1.isDigit = true) (hy2 : y2.isDigit = true) (hy3 : y3.isDigit = true)
    (hy4 : y4.isDigit = true) :
    matchDMonYAt (a :: b :: '-' :: m1 :: m2 :: m3 :: '-' :: y1 :: y2 :: y3 :: y4 :: rest) =
      some (⟨[a, b]⟩, ⟨[m1, m2, m3]⟩, ⟨[y1, y2, y3, y4]⟩) := by
  unfold matchDMonYAt
  dsimp only
  rw [if_pos ha, if_pos hb,
    matchDashMonY_pos m1 m2 m3 y1 y2 y3 y4 rest hm1 hm2 hm3 hy1 hy2 hy3 hy4]

/-- Pattern one year tail succeeds on its exact shape. -/
theorem matchSlashYear_pos (y1 y2 y3 y4 : Char) (rest : List Char)
    (hy1 : y1.isDigit = true) (hy2 : y2.isDigit = true) (hy3 : y3.isDigit = true)
    (hy4 : y4.isDigit = true) :
    matchSlashYear ('/' :: y1 :: y2 :: y3 :: y4 :: rest) = some ⟨[y1, y2, y3, y4]⟩ := by
  unfold matchSlashYear
  simp [hy1, hy2, hy3, hy4]

/-- Pattern one tail succeeds at a one digit day. -/
theorem matchSlashD12Year_day1 (a y1 y2 y3 y4 : Char) (m rest : List Char)
    (ha : a.isDigit = true)
    (hy1 : y1.isDigit = true) (hy2 : y2.isDigit = true) (hy3 : y3.isDigit = true)
    (hy4 : y4.isDigit = true) :
    matchSlashD12Year ('/' :: a :: '/' :: y1 :: y2 :: y3 :: y4 :: rest) m =
      some (⟨m⟩, ⟨[a]⟩, ⟨[y1, y2, y3, y4]⟩) := by
  unfold matchSlashD12Year take2or1
  dsimp only
  rw [if_pos rfl, if_pos ha, if_neg (by decide : ¬ ('/').isDigit = true),
    matchSlashYear_pos y1 y2 y3 y4 rest hy1 hy2 hy3 hy4]

/-- Pattern one tail succeeds at a two digit day. -/
theorem matchSlashD12Year_day2 (a b y1 y2 y3 y4 : Char) (m rest : List Char)
    (ha : a.isDigit = true) (hb : b.isDigit = true)
    (hy1 : y1.isDigit = true) (hy2 : y2.isDigit = true) (hy3 : y3.isDigit = true)
    (hy4 : y4.isDigit = true) :
    matchSlashD12Year ('/' :: a :: b :: '/' :: y1 :: y2 :: y3 :: y4 :: rest) m =
      some (⟨m⟩, ⟨[a, b]⟩, ⟨[y1, y2, y3, y4]⟩) := by
  unfold matchSlashD12Year take2or1
  dsimp only
  rw [if_pos rfl, if_pos ha, if_pos hb,
    matchSlashYear_pos y1 y2 y3 y4 rest hy1 hy2 hy3 hy4]

/-- Pattern one succeeds at a one digit month given a successful tail. -/
theorem matchMDYAt_m1 (a : Char) (rest : List Char) (r : String × String × String)
    (ha : a.isDigit = true)
    (hs : matchSlashD12Year ('/' :: rest) [a] = some r) :
    matchMDYAt (a :: '/' :: rest) = some r := by
  unfold matchMDYAt take2or1
  dsimp only
  rw [if_pos ha, if_neg (by decide : ¬ ('/').isDigit = true), hs]

/-- Pattern one succeeds at a two digit month given a successful tail. -/
theorem matchMDYAt_m2 (a b : Char) (rest : List Char) (r : String × String × String)
    (ha : a.isDigit = true) (hb : b.isDigit = true)
    (hs : matchSlashD12Year ('/' :: rest) [a, b] = some r) :
    matchMDYAt (a :: b :: '/' :: rest) = some r := by
  unfold matchMDYAt take2or1
  dsimp only
  rw [if_pos ha, if_pos hb, hs]

/-- Pattern two succeeds at a one digit month and one digit day. -/
theorem matchYMDAt_11 (y1 y2 y3 y4 f i : Char)
    (hy1 : y1.isDigit = true) (hy2 : y2.isDigit = true) (hy3 : y3.isDigit = true)
    (hy4 : y4.isDigit = true) (hf : f.isDigit = true) (hi : i.isDigit = true) :
    matchYMDAt [y1, y2, y3, y4, '-', f, '-', i] =
      some (⟨[y1, y2, y3, y4]⟩, ⟨[f]⟩, ⟨[i]⟩) := by
  unfold matchYMDAt take2or1
  simp [hy1, hy2, hy3, hy4, hf, hi]

/-- Pattern two succeeds at a one digit month and two digit day. -/
theorem matchYMDAt_12 (y1 y2 y3 y4 f i j : Char)
    (hy1 : y1.isDigit = true) (hy2 : y2.isDigit = true) (hy3 : y3.isDigit = true)
    (hy4 : y4.isDigit = true) (hf : f.isDigit = true) (hi : i.isDigit = true)
    (hj : j.isDigit = true) :
    matchYMDAt [y1, y2, y3, y4, '-', f, '-', i, j] =
      some (⟨[y1, y2, y3, y4]⟩, ⟨[f]⟩, ⟨[i, j]⟩) := by
  unfold matchYMDAt take2or1
  simp [hy1, hy2, hy3, hy4, hf, hi, hj]

/-- Pattern two succeeds at a two digit month and one digit day. -/
theorem matchYMDAt_21 (y1 y2 y3 y4 f g i : Char)
    (hy1 : y1.isDigit = true) (hy2 : y2.isDigit = true) (hy3 : y3.isDigit = true)
    (hy4 : y4.isDigit = true) (hf : f.isDigit = true) (hg : g.isDigit = true)
    (hi : i.isDigit = true) :
    matchYMDAt [y1, y2, y3, y4, '-', f, g, '-', i] =
      some (⟨[y1, y2, y3, y4]⟩, ⟨[f, g]⟩, ⟨[i]⟩) := by
  unfold matchYMDAt take2or1
  simp [hy1, hy2, hy3, hy4, hf, hg, hi]

/-- Pattern two succeeds at a two digit month and two digit day. -/
theorem matchYMDAt_22 (y1 y2 y3 y4 f g i j : Char)
    (hy1 : y1.isDigit = true) (hy2 : y2.isDigit = true) (hy3 : y3.isDigit = true)
    (hy4 : y4.isDigit = true) (hf : f.isDigit = true) (hg : g.isDigit = true)
    (hi : i.isDigit = true) (hj : j.isDigit = true) :
    matchYMDAt [y1, y2, y3, y4, '-', f, g, '-', i, j] =
      some (⟨[y1, y2, y3, y4]⟩, ⟨[f, g]⟩, ⟨[i, j]⟩) := by
  unfold matchYMDAt take2or1
  simp [hy1, hy2, hy3, hy4, hf, hg, hi, hj]

theorem list_eq_of_len1 (l : List Char) (h : l.length = 1) : ∃ a, l = [a] := by
  cases l with
  | nil => simp at h
  | cons a t =>
    cases t with
    | nil => exact ⟨a, rfl⟩
    | cons b t2 => simp at h

theorem list_eq_of_len2 (l : List Char) (h : l.length = 2) : ∃ a b, l = [a, b] := by
  cases l with
  | nil => simp at h
  | cons a t =>
    obtain ⟨b, hb⟩ := list_eq_of_len1 t (by simpa using h)
    exact ⟨a, b, by rw [hb]⟩

theorem list_eq_of_len3 (l : List Char) (h : l.length = 3) : ∃ a b c, l = [a, b, c] := by
  cases l with
  | nil => simp at h
  | cons a t =>
    obtain ⟨b, c, hb⟩ := list_eq_of_len2 t (by simpa using h)
    exact ⟨a, b, c, by rw [hb]⟩

theorem list_eq_of_len4 (l : List Char) (h : l.length = 4) :
    ∃ a b c d, l = [a, b, c, d] := by
  cases l with
  | nil => simp at h
  | cons a t =>
    obtain ⟨b, c, d, hb⟩ := list_eq_of_len3 t (by simpa using h)
    exact ⟨a, b, c, d, by rw [hb]⟩

theorem zfill_one (x : Char) : zfill ⟨[x]⟩ 2 = ⟨['0', x]⟩ := rfl

theorem zfill_two (x y : Char) : zfill ⟨[x, y]⟩ 2 = ⟨[x, y]⟩ := rfl

/-- A nonempty result of the third date stage passed the calendar check. -/
theorem extract_date_p2_valid (h : String) :
    extract_date_p2 h ≠ "" → strptime_valid (extract_date_p2 h) = true := by
  unfold extract_date_p2
  split
  · split
    · next hv => exact fun _ => hv
    · exact fun hne => absurd rfl hne
  · exact fun hne => absurd rfl hne

/-- A nonempty result of the second date stage passed the calendar check. -/
theorem extract_date_p1_valid (h : String) :
    extract_date_p1 h ≠ "" → strptime_valid (extract_date_p1 h) = true := by
  unfold extract_date_p1
  split
  · split
    · next hv => exact fun _ => hv
    · exact extract_date_p2_valid h
  · exact extract_date_p2_valid h

/-- A nonempty result of date extraction passed the calendar check. -/
theorem extract_date_valid (h : String) :
    extract_date h ≠ "" → strptime_valid (extract_date h) = true := by
  unfold extract_date
  split
  · split
    · split
      · next hv => exact fun _ => hv
      · exact extract_date_p1_valid h
    · exact extract_date_p1_valid h
  · exact extract_date_p1_valid h

/-- A string passing the calendar check has the anchored date shape. -/
theorem strptime_valid_shape (s : String) (hv : strptime_valid s = true) :
    dateShapeOK s = true := by
  unfold strptime_valid at hv
  unfold dateShapeOK
  split at hv
  · next a b c d e f g h8 i j heq =>
    simp only [Bool.and_eq_true] at hv ⊢
    tauto
  · exact absurd hv (by simp)

/-- The validating record constructor stores the question it is given. -/
theorem mkVoteRecord_ok_question (c : Int) (d : String) (r : Int)
    (leg vc q bt url : String) (rec : VoteRecord)
    (h : mkVoteRecord c d r leg vc q bt url = .ok rec) : rec.question = q := by
  unfold mkVoteRecord at h
  split at h
  · exact Except.noConfusion h
  · split at h
    · exact Except.noConfusion h
    · split at h
      · exact Except.noConfusion h
      · split at h
        · exact Except.noConfusion h
        · injection h with h2
          rw [← h2]

/-- Extraction of a whole input date in the YYYY-M-D format: the first
two patterns cannot match a text of digits and dashes with letters and
slashes absent, and the third returns the zero padded canonical form. -/
theorem extract_date_ymd (y m d : String)
    (hy : y.data.length = 4) (hyd : ∀ c ∈ y.data, c.isDigit = true)
    (hm : m.data.length = 1 ∨ m.data.length = 2)
    (hmd : ∀ c ∈ m.data, c.isDigit = true)
    (hd : d.data.length = 1 ∨ d.data.length = 2)
    (hdd : ∀ c ∈ d.data, c.isDigit = true)
    (hval : strptime_valid (y ++ "-" ++ zfill m 2 ++ "-" ++ zfill d 2) = true) :
    extract_date (y ++ "-" ++ m ++ "-" ++ d) =
      y ++ "-" ++ zfill m 2 ++ "-" ++ zfill d 2 := by
  have hchar : ∀ c ∈ (y ++ "-" ++ m ++ "-" ++ d).data,
      c.isDigit = true ∨ c = '-' := by
    intro c hc
    simp only [String.data_append, List.mem_append] at hc
    rcases hc with (((hc | hc) | hc) | hc) | hc
    · exact Or.inl (hyd c hc)
    · exact Or.inr (by simpa using hc)
    · exact Or.inl (hmd c hc)
    · exact Or.inr (by simpa using hc)
    · exact Or.inl (hdd c hc)
  have h0 : searchDMonY (y ++ "-" ++ m ++ "-" ++ d).data = none :=
    searchDMonY_none_of_no_alpha _ (fun c hc =>
      (hchar c hc).elim (isDigit_not_isAlpha c) (fun h => by rw [h]; decide))
  have h1 : searchMDY (y ++ "-" ++ m ++ "-" ++ d).data = none :=
    searchMDY_none_of_no_slash _ (fun c hc =>
      (hchar c hc).elim (isDigit_ne_slash c) (fun h => by rw [h]; decide))
  obtain ⟨ly⟩ := y
  obtain ⟨lm⟩ := m
  obtain ⟨ld⟩ := d
  obtain ⟨y1, y2, y3, y4, rfl⟩ := list_eq_of_len4 ly hy
  have hy1 : y1.isDigit = true := hyd y1 (by simp)
  have hy2 : y2.isDigit = true := hyd y2 (by simp)
  have hy3 : y3.isDigit = true := hyd y3 (by simp)
  have hy4 : y4.isDigit = true := hyd y4 (by simp)
  rcases hm with hm1 | hm2
  · obtain ⟨f, rfl⟩ := list_eq_of_len1 lm hm1
    have hf : f.isDigit = true := hmd f (by simp)
    rcases hd with hd1 | hd2
    · obtain ⟨i, rfl⟩ := list_eq_of_len1 ld hd1
      have hi : i.isDigit = true := hdd i (by simp)
      have hdata : ((⟨[y1, y2, y3, y4]⟩ : String) ++ "-" ++ ⟨[f]⟩ ++ "-" ++ ⟨[i]⟩).data =
          [y1, y2, y3, y4, '-', f, '-', i] := by
        simp [String.data_append]
      have h2 : searchYMD ((⟨[y1, y2, y3, y4]⟩ : String) ++ "-" ++ ⟨[f]⟩ ++ "-" ++ ⟨[i]⟩).data =
          some (⟨[y1, y2, y3, y4]⟩, ⟨[f]⟩, ⟨[i]⟩) := by
        rw [hdata]
        exact searchYMD_of_matchAt _ _ (matchYMDAt_11 y1 y2 y3 y4 f i hy1 hy2 hy3 hy4 hf hi)
      unfold extract_date extract_date_p1 extract_date_p2
      rw [h0, h1, h2]
      dsimp only
      rw [if_pos hval]
    · obtain ⟨i, j, rfl⟩ := list_eq_of_len2 ld hd2
      have hi : i.isDigit = true := hdd i (by simp)
      have hj : j.isDigit = true := hdd j (by simp)
      have hdata : ((⟨[y1, y2, y3, y4]⟩ : String) ++ "-" ++ ⟨[f]⟩ ++ "-" ++ ⟨[i, j]⟩).data =
          [y1, y2, y3, y4, '-', f, '-', i, j] := by
        simp [String.data_append]
      have h2 : searchYMD ((⟨[y1, y2, y3, y4]⟩ : String) ++ "-" ++ ⟨[f]⟩ ++ "-" ++ ⟨[i, j]⟩).data =
          some (⟨[y1, y2, y3, y4]⟩, ⟨[f]⟩, ⟨[i, j]⟩) := by
        rw [hdata]
        exact searchYMD_of_matchAt _ _ (matchYMDAt_12 y1 y2 y3 y4 f i j hy1 hy2 hy3 hy4 hf hi hj)
      unfold extract_date extract_date_p1 extract_date_p2
      rw [h0, h1, h2]
      dsimp only
      rw [if_pos hval]
  · obtain ⟨f, g, rfl⟩ := list_eq_of_len2 lm hm2
    have hf : f.isDigit = true := hmd f (by simp)
    have hg : g.isDigit = true := hmd g (by simp)
    rcases hd with hd1 | hd2
    · obtain ⟨i, rfl⟩ := list_eq_of_len1 ld hd1
      have hi : i.isDigit = true := hdd i (by simp)
      have hdata : ((⟨[y1, y2, y3, y4]⟩ : String) ++ "-" ++ ⟨[f, g]⟩ ++ "-" ++ ⟨[i]⟩).data =
          [y1, y2, y3, y4, '-', f, g, '-', i] := by
        simp [String.data_append]
      have h2 : searchYMD ((⟨[y1, y2, y3, y4]⟩ : String) ++ "-" ++ ⟨[f, g]⟩ ++ "-" ++ ⟨[i]⟩).data =
          some (⟨[y1, y2, y3, y4]⟩, ⟨[f, g]⟩, ⟨[i]⟩) := by
        rw [hdata]
        exact searchYMD_of_matchAt _ _ (matchYMDAt_21 y1 y2 y3 y4 f g i hy1 hy2 hy3 hy4 hf hg hi)
      unfold extract_date extract_date_p1 extract_date_p2
      rw [h0, h1, h2]
      dsimp only
      rw [if_pos hval]
    · obtain ⟨i, j, rfl⟩ := list_eq_of_len2 ld hd2
      have hi : i.isDigit = true := hdd i (by simp)
      have hj : j.isDigit = true := hdd j (by simp)
      have hdata : ((⟨[y1, y2, y3, y4]⟩ : String) ++ "-" ++ ⟨[f, g]⟩ ++ "-" ++ ⟨[i, j]⟩).data =
          [y1, y2, y3, y4, '-', f, g, '-', i, j] := by
        simp [String.data_append]
      have h2 : searchYMD ((⟨[y1, y2, y3, y4]⟩ : String) ++ "-" ++ ⟨[f, g]⟩ ++ "-" ++ ⟨[i, j]⟩).data =
          some (⟨[y1, y2, y3, y4]⟩, ⟨[f, g]⟩, ⟨[i, j]⟩) := by
        rw [hdata]
        exact searchYMD_of_matchAt _ _ (matchYMDAt_22 y1 y2 y3 y4 f g i j hy1 hy2 hy3 hy4 hf hg hi hj)
      unfold extract_date extract_date_p1 extract_date_p2
      rw [h0, h1, h2]
      dsimp only
      rw [if_pos hval]

/-- Extraction of a whole input date in the M/D/YYYY format: pattern
zero cannot match a text of digits and slashes with dashes absent, and
pattern one returns the zero padded canonical form. -/
theorem extract_date_mdy (m d y : String)
    (hm : m.data.length = 1 ∨ m.data.length = 2)
    (hmd : ∀ c ∈ m.data, c.isDigit = true)
    (hd : d.data.length = 1 ∨ d.data.length = 2)
    (hdd : ∀ c ∈ d.data, c.isDigit = true)
    (hy : y.data.length = 4) (hyd : ∀ c ∈ y.data, c.isDigit = true)
    (hval : strptime_valid (y ++ "-" ++ zfill m 2 ++ "-" ++ zfill d 2) = true) :
    extract_date (m ++ "/" ++ d ++ "/" ++ y) =
      y ++ "-" ++ zfill m 2 ++ "-" ++ zfill d 2 := by
  have hchar : ∀ c ∈ (m ++ "/" ++ d ++ "/" ++ y).data,
      c.isDigit = true ∨ c = '/' := by
    intro c hc
    simp only [String.data_append, List.mem_append] at hc
    rcases hc with (((hc | hc) | hc) | hc) | hc
    · exact Or.inl (hmd c hc)
    · exact Or.inr (by simpa using hc)
    · exact Or.inl (hdd c hc)
    · exact Or.inr (by simpa using hc)
    · exact Or.inl (hyd c hc)
  have h0 : searchDMonY (m ++ "/" ++ d ++ "/" ++ y).data = none :=
    searchDMonY_none_of_no_dash _ (fun c hc =>
      (hchar c hc).elim (isDigit_ne_dash c) (fun h => by rw [h]; decide))
  obtain ⟨lm⟩ := m
  obtain ⟨ld⟩ := d
  obtain ⟨ly⟩ := y
  obtain ⟨y1, y2, y3, y4, rfl⟩ := list_eq_of_len4 ly hy
  have hy1 : y1.isDigit = true := hyd y1 (by simp)
  have hy2 : y2.isDigit = true := hyd y2 (by simp)
  have hy3 : y3.isDigit = true := hyd y3 (by simp)
  have hy4 : y4.isDigit = true := hyd y4 (by simp)
  rcases hm with hm1 | hm2
  · obtain ⟨a, rfl⟩ := list_eq_of_len1 lm hm1
    have ha : a.isDigit = true := hmd a (by simp)
    rcases hd with hd1 | hd2
    · obtain ⟨i, rfl⟩ := list_eq_of_len1 ld hd1
      have hi : i.isDigit = true := hdd i (by simp)
      have hdata : ((⟨[a]⟩ : String) ++ "/" ++ ⟨[i]⟩ ++ "/" ++ ⟨[y1, y2, y3, y4]⟩).data =
          [a, '/', i, '/', y1, y2, y3, y4] := by
        simp [String.data_append]
      have h1 : searchMDY ((⟨[a]⟩ : String) ++ "/" ++ ⟨[i]⟩ ++ "/" ++ ⟨[y1, y2, y3, y4]⟩).data =
          some (⟨[a]⟩, ⟨[i]⟩, ⟨[y1, y2, y3, y4]⟩) := by
        rw [hdata]
        exact searchMDY_of_matchAt _ _ (matchMDYAt_m1 a _ _ ha
          (matchSlashD12Year_day1 i y1 y2 y3 y4 [a] [] hi hy1 hy2 hy3 hy4))
      unfold extract_date extract_date_p1
      rw [h0, h1]
      dsimp only
      rw [if_pos hval]
    · obtain ⟨i, j, rfl⟩ := list_eq_of_len2 ld hd2
      have hi : i.isDigit = true := hdd i (by simp)
      have hj : j.isDigit = true := hdd j (by simp)
      have hdata : ((⟨[a]⟩ : String) ++ "/" ++ ⟨[i, j]⟩ ++ "/" ++ ⟨[y1, y2, y3, y4]⟩).data =
          [a, '/', i, j, '/', y1, y2, y3, y4] := by
        simp [String.data_append]
      have h1 : searchMDY ((⟨[a]⟩ : String) ++ "/" ++ ⟨[i, j]⟩ ++ "/" ++ ⟨[y1, y2, y3, y4]⟩).data =
          some (⟨[a]⟩, ⟨[i, j]⟩, ⟨[y1, y2, y3, y4]⟩) := by
        rw [hdata]
        exact searchMDY_of_matchAt _ _ (matchMDYAt_m1 a _ _ ha
          (matchSlashD12Year_day2 i j y1 y2 y3 y4 [a] [] hi hj hy1 hy2 hy3 hy4))
      unfold extract_date extract_date_p1
      rw [h0, h1]
      dsimp only
      rw [if_pos hval]
  · obtain ⟨a, b, rfl⟩ := list_eq_of_len2 lm hm2
    have ha : a.isDigit = true := hmd a (by simp)
    have hb : b.isDigit = true := hmd b (by simp)
    rcases hd with hd1 | hd2
    · obtain ⟨i, rfl⟩ := list_eq_of_len1 ld hd1
      have hi : i.isDigit = true := hdd i (by simp)
      have hdata : ((⟨[a, b]⟩ : String) ++ "/" ++ ⟨[i]⟩ ++ "/" ++ ⟨[y1, y2, y3, y4]⟩).data =
          [a, b, '/', i, '/', y1, y2, y3, y4] := by
        simp [String.data_append]
      have h1 : searchMDY ((⟨[a, b]⟩ : String) ++ "/" ++ ⟨[i]⟩ ++ "/" ++ ⟨[y1, y2, y3, y4]⟩).data =
          some (⟨[a, b]⟩, ⟨[i]⟩, ⟨[y1, y2, y3, y4]⟩) := by
        rw [hdata]
        exact searchMDY_of_matchAt _ _ (matchMDYAt_m2 a b _ _ ha hb
          (matchSlashD12Year_day1 i y1 y2 y3 y4 [a, b] [] hi hy1 hy2 hy3 hy4))
      unfold extract_date extract_date_p1
      rw [h0, h1]
      dsimp only
      rw [if_pos hval]
    · obtain ⟨i, j, rfl⟩ := list_eq_of_len2 ld hd2
      have hi : i.isDigit = true := hdd i (by simp)
      have hj : j.isDigit = true := hdd j (by simp)
      have hdata : ((⟨[a, b]⟩ : String) ++ "/" ++ ⟨[i, j]⟩ ++ "/" ++ ⟨[y1, y2, y3, y4]⟩).data =
          [a, b, '/', i, j, '/', y1, y2, y3, y4] := by
        simp [String.data_append]
      have h1 : searchMDY ((⟨[a, b]⟩ : String) ++ "/" ++ ⟨[i, j]⟩ ++ "/" ++ ⟨[y1, y2, y3, y4]⟩).data =
          some (⟨[a, b]⟩, ⟨[i, j]⟩, ⟨[y1, y2, y3, y4]⟩) := by
        rw [hdata]
        exact searchMDY_of_matchAt _ _ (matchMDYAt_m2 a b _ _ ha hb
          (matchSlashD12Year_day2 i j y1 y2 y3 y4 [a, b] [] hi hj hy1 hy2 hy3 hy4))
      unfold extract_date extract_date_p1
      rw [h0, h1]
      dsimp only
      rw [if_pos hval]

/-- Extraction of a whole input date in the D-Mon-YYYY format: pattern
zero matches at once and returns the canonical form through the month
table maintained by the scraper. -/
theorem extract_date_dmony (d mon y mm : String)
    (hd : d.data.length = 1 ∨ d.data.length = 2)
    (hdd : ∀ c ∈ d.data, c.isDigit = true)
    (hmon : mon.data.length = 3) (hma : ∀ c ∈ mon.data, c.isAlpha = true)
    (hy : y.data.length = 4) (hyd : ∀ c ∈ y.data, c.isDigit = true)
    (hmap : monthMap (pyLower mon) = some mm)
    (hval : strptime_valid (y ++ "-" ++ mm ++ "-" ++ zfill d 2) = true) :
    extract_date (d ++ "-" ++ mon ++ "-" ++ y) =
      y ++ "-" ++ mm ++ "-" ++ zfill d 2 := by
  obtain ⟨ld⟩ := d
  obtain ⟨lmon⟩ := mon
  obtain ⟨ly⟩ := y
  obtain ⟨m1, m2, m3, rfl⟩ := list_eq_of_len3 lmon hmon
  obtain ⟨y1, y2, y3, y4, rfl⟩ := list_eq_of_len4 ly hy
  have hm1 : m1.isAlpha = true := hma m1 (by simp)
  have hm2 : m2.isAlpha = true := hma m2 (by simp)
  have hm3 : m3.isAlpha = true := hma m3 (by simp)
  have hy1 : y1.isDigit = true := hyd y1 (by simp)
  have hy2 : y2.isDigit = true := hyd y2 (by simp)
  have hy3 : y3.isDigit = true := hyd y3 (by simp)
  have hy4 : y4.isDigit = true := hyd y4 (by simp)
  rcases hd with hd1 | hd2
  · obtain ⟨a, rfl⟩ := list_eq_of_len1 ld hd1
    have ha : a.isDigit = true := hdd a (by simp)
    have hdata : ((⟨[a]⟩ : String) ++ "-" ++ ⟨[m1, m2, m3]⟩ ++ "-" ++ ⟨[y1, y2, y3, y4]⟩).data =
        [a, '-', m1, m2, m3, '-', y1, y2, y3, y4] := by
      simp [String.data_append]
    have h0 : searchDMonY ((⟨[a]⟩ : String) ++ "-" ++ ⟨[m1, m2, m3]⟩ ++ "-" ++ ⟨[y1, y2, y3, y4]⟩).data =
        some (⟨[a]⟩, ⟨[m1, m2, m3]⟩, ⟨[y1, y2, y3, y4]⟩) := by
      rw [hdata]
      exact searchDMonY_of_matchAt _ _
        (matchDMonYAt_day1 a m1 m2 m3 y1 y2 y3 y4 [] ha hm1 hm2 hm3 hy1 hy2 hy3 hy4)
    unfold extract_date
    rw [h0]
    dsimp only
    rw [hmap]
    dsimp only
    rw [if_pos hval]
  · obtain ⟨a, b, rfl⟩ := list_eq_of_len2 ld hd2
    have ha : a.isDigit = true := hdd a (by simp)
    have hb : b.isDigit = true := hdd b (by simp)
    have hdata : ((⟨[a, b]⟩ : String) ++ "-" ++ ⟨[m1, m2, m3]⟩ ++ "-" ++ ⟨[y1, y2, y3, y4]⟩).data =
        [a, b, '-', m1, m2, m3, '-', y1, y2, y3, y4] := by
      simp [String.data_append]
    have h0 : searchDMonY ((⟨[a, b]⟩ : String) ++ "-" ++ ⟨[m1, m2, m3]⟩ ++ "-" ++ ⟨[y1, y2, y3, y4]⟩).data =
        some (⟨[a, b]⟩, ⟨[m1, m2, m3]⟩, ⟨[y1, y2, y3, y4]⟩) := by
      rw [hdata]
      exact searchDMonY_of_matchAt _ _
        (matchDMonYAt_day2 a b m1 m2 m3 y1 y2 y3 y4 [] ha hb hm1 hm2 hm3 hy1 hy2 hy3 hy4)
    unfold extract_date
    rw [h0]
    dsimp only
    rw [hmap]
    dsimp only
    rw [if_pos hval]

theorem string_eq_of_data (s t : String) (h : s.data = t.data) : s = t := by
  cases s
  cases t
  exact congrArg String.mk h

theorem string_mk_data (s : String) : (⟨s.data⟩ : String) = s := by
  cases s
  rfl

/-- A string passing the calendar check is four digits, a dash, two
digits, a dash and two digits. -/
theorem strptime_valid_elim (s : String) (hv : strptime_valid s = true) :
    ∃ a b c d f g i j, s.data = [a, b, c, d, '-', f, g, '-', i, j] ∧
      a.isDigit = true ∧ b.isDigit = true ∧ c.isDigit = true ∧ d.isDigit = true ∧
      f.isDigit = true ∧ g.isDigit = true ∧ i.isDigit = true ∧ j.isDigit = true := by
  unfold strptime_valid at hv
  split at hv
  · next a b c d e f g h8 i j heq =>
    simp only [Bool.and_eq_true, decide_eq_true_eq] at hv
    obtain ⟨⟨⟨⟨⟨⟨⟨⟨⟨⟨ha, hb⟩, hc⟩, hd⟩, he⟩, hf⟩, hg⟩, hh⟩, hi⟩, hj⟩, _⟩ := hv
    subst he
    subst hh
    exact ⟨a, b, c, d, f, g, i, j, heq, ha, hb, hc, hd, hf, hg, hi, hj⟩
  · exact absurd hv (by simp)

/-- Date extraction is idempotent on every nonempty output. -/
theorem extract_date_idem (s : String) (h : extract_date s ≠ "") :
    extract_date (extract_date s) = extract_date s := by
  have hv := extract_date_valid s h
  obtain ⟨a, b, c, d, f, g, i, j, heq, ha, hb, hc, hd, hf, hg, hi, hj⟩ :=
    strptime_valid_elim _ hv
  have h2 : ((⟨[a, b, c, d]⟩ : String) ++ "-" ++ ⟨[f, g]⟩ ++ "-" ++ ⟨[i, j]⟩).data =
      [a, b, c, d, '-', f, g, '-', i, j] := by
    simp [String.data_append]
  have hrecon : extract_date s =
      (⟨[a, b, c, d]⟩ : String) ++ "-" ++ ⟨[f, g]⟩ ++ "-" ++ ⟨[i, j]⟩ :=
    string_eq_of_data _ _ (heq.trans h2.symm)
  have hval2 : strptime_valid ((⟨[a, b, c, d]⟩ : String) ++ "-" ++
      zfill ⟨[f, g]⟩ 2 ++ "-" ++ zfill ⟨[i, j]⟩ 2) = true := by
    rw [zfill_two, zfill_two, ← hrecon]
    exact hv
  have happ := extract_date_ymd ⟨[a, b, c, d]⟩ ⟨[f, g]⟩ ⟨[i, j]⟩
    (by simp)
    (by intro x hx; simp at hx; rcases hx with rfl | rfl | rfl | rfl <;> assumption)
    (Or.inr (by simp))
    (by intro x hx; simp at hx; rcases hx with rfl | rfl <;> assumption)
    (Or.inr (by simp))
    (by intro x hx; simp at hx; rcases hx with rfl | rfl <;> assumption)
    hval2
  rw [hrecon, happ, zfill_two, zfill_two, ← hrecon]

theorem take_prefix_of_take_append (L a b : List VoteRecord)
    (h : L.take (a ++ b).length = a ++ b) : L.take a.length = a := by
  have h2 := congrArg (List.take a.length) h
  rw [List.take_take] at h2
  rw [show min a.length (a ++ b).length = a.length by
    simp [List.length_append]] at h2
  rw [List.take_left] at h2
  exact h2

theorem take_middle (L a sv : List VoteRecord) (r : Nat)
    (har : a.length ≤ r) (hrs : r - a.length ≤ sv.length)
    (h : L.take (a ++ sv).length = a ++ sv) :
    L.take r = a ++ sv.take (r - a.length) := by
  conv_lhs => rw [← List.take_append_drop (a ++ sv).length L, h]
  rw [List.append_assoc, List.take_append_eq_append_take,
    List.take_of_length_le har,
    List.take_append_of_le_length hrs]

/-- The accumulated records of an uncapped session run are a prefix of
its final list. -/
theorem collectSessionLoop_none_take
    (fetch : Int → Nat → Nat → Except Fault (List APIVoteData))
    (scrape : String → ScrapedVoteDetails) (c : Int) (s : Nat) (ln stt : String) :
    ∀ fuel (st : SessState) (L : List VoteRecord),
      collectSessionLoop fetch scrape c s ln stt none fuel st = some (.ok L) →
      L.take st.votes.length = st.votes := by
  intro fuel
  induction fuel with
  | zero => intro st L h; exact Option.noConfusion h
  | succ f ih =>
    intro st L h
    rw [collectSessionLoop] at h
    split at h
    · simp only [Option.some.injEq, Except.ok.injEq] at h
      subst h
      exact List.take_length _
    · split at h
      · next hcap => simp [capReached_none] at hcap
      · split at h
        · split at h
          · simp only [Option.some.injEq, Except.ok.injEq] at h
            subst h
            exact List.take_length _
          · exact ih ⟨st.votes, st.voteNumber + 1, st.failures + 1⟩ L h
        · simp at h
        · split at h
          · exact ih ⟨st.votes, st.voteNumber + 1, 0⟩ L h
          · split at h
            · simp at h
            · next rec heq =>
              have h2 := ih _ L h
              exact take_prefix_of_take_append L st.votes [rec] h2

/-- Capping an uncapped session run that finishes with list L cuts it to
the cap, counted from the accumulator already held. -/
theorem collectSessionLoop_cap
    (fetch : Int → Nat → Nat → Except Fault (List APIVoteData))
    (scrape : String → ScrapedVoteDetails) (c : Int) (s : Nat) (ln stt : String) :
    ∀ fuel (st : SessState) (r : Nat) (L : List VoteRecord), 1 ≤ r →
      collectSessionLoop fetch scrape c s ln stt none fuel st = some (.ok L) →
      collectSessionLoop fetch scrape c s ln stt (some r) fuel st =
        some (.ok (L.take (max st.votes.length r))) := by
  intro fuel
  induction fuel with
  | zero => intro st r L hr h; exact Option.noConfusion h
  | succ f ih =>
    intro st r L hr h
    have htake := collectSessionLoop_none_take fetch scrape c s ln stt (f + 1) st L h
    rw [collectSessionLoop] at h
    rw [collectSessionLoop]
    by_cases h5 : 5 ≤ st.failures
    · rw [if_pos h5] at h ⊢
      simp only [Option.some.injEq, Except.ok.injEq] at h
      subst h
      rw [List.take_of_length_le (Nat.le_max_left _ _)]
    · rw [if_neg h5] at h ⊢
      simp only [capReached_none, Bool.false_eq_true, if_false] at h
      by_cases hcap : capReached (some r) st.votes.length = true
      · rw [if_pos hcap]
        have hrn : r ≤ st.votes.length := by
          simp only [capReached, Bool.and_eq_true, decide_eq_true_eq] at hcap
          exact hcap.2
        rw [Nat.max_eq_left hrn, htake]
      · rw [if_neg hcap]
        have hnr : st.votes.length < r := by
          simp only [capReached, Bool.and_eq_true, decide_eq_true_eq,
            not_and, not_le] at hcap
          exact hcap (by omega)
        cases hf : fetch c s st.voteNumber with
        | error ferr =>
          rw [hf] at h
          cases ferr with
          | apiError code =>
            dsimp only at h ⊢
            by_cases h51 : 5 ≤ st.failures + 1
            · rw [if_pos h51] at h ⊢
              simp only [Option.some.injEq, Except.ok.injEq] at h
              subst h
              rw [List.take_of_length_le (Nat.le_max_left _ _)]
            · rw [if_neg h51] at h ⊢
              exact ih _ r L hr h
          | validationError m => dsimp only at h; simp at h
          | scrapingError m => dsimp only at h; simp at h
        | ok records =>
          rw [hf] at h
          dsimp only at h ⊢
          cases hfind : findMemberVote records ln stt with
          | none =>
            rw [hfind] at h
            dsimp only at h ⊢
            exact ih ⟨st.votes, st.voteNumber + 1, 0⟩ r L hr h
          | some mv =>
            rw [hfind] at h
            dsimp only at h ⊢
            cases hmerge : mergeRecord scrape mv with
            | error ferr => rw [hmerge] at h; simp at h
            | ok rec =>
              rw [hmerge] at h
              dsimp only at h ⊢
              have h2 := ih ⟨st.votes ++ [rec], st.voteNumber + 1, 0⟩ r L hr h
              rw [h2]
              have hmax : max (st.votes ++ [rec]).length r = max st.votes.length r := by
                simp only [List.length_append, List.length_cons, List.length_nil]
                omega
              rw [hmax]

/-- A congress pass whose accumulator already reaches the cap stops at
once with the accumulator. -/
theorem collectCongressLoop_stop
    (fetch : Int → Nat → Nat → Except Fault (List APIVoteData))
    (scrape : String → ScrapedVoteDetails) (c : Int) (ln stt : String)
    (mv : Option Nat) (fuel : Nat) (sessions : List Nat) (acc : List VoteRecord)
    (h : capReached mv acc.length = true) :
    collectCongressLoop fetch scrape c ln stt mv fuel sessions acc =
      some (.ok acc) := by
  cases sessions with
  | nil => rfl
  | cons s rest => rw [collectCongressLoop, if_pos h]

/-- The accumulator of an uncapped congress pass is a prefix of its final
list. -/
theorem collectCongressLoop_none_take
    (fetch : Int → Nat → Nat → Except Fault (List APIVoteData))
    (scrape : String → ScrapedVoteDetails) (c : Int) (ln stt : String) (fuel : Nat) :
    ∀ (sessions : List Nat) (acc L : List VoteRecord),
      collectCongressLoop fetch scrape c ln stt none fuel sessions acc =
        some (.ok L) →
      L.take acc.length = acc := by
  intro sessions
  induction sessions with
  | nil =>
    intro acc L h
    simp only [collectCongressLoop, Option.some.injEq, Except.ok.injEq] at h
    subst h
    exact List.take_length _
  | cons s rest ih =>
    intro acc L h
    rw [collectCongressLoop] at h
    simp only [capReached_none, Bool.false_eq_true, if_false] at h
    split at h
    · exact Option.noConfusion h
    · simp at h
    · next sv heq =>
      exact take_prefix_of_take_append L acc sv (ih (acc ++ sv) L h)

/-- Capping an uncapped congress pass that finishes with list L cuts it
to the cap, counted from the accumulator already held. -/
theorem collectCongressLoop_cap
    (fetch : Int → Nat → Nat → Except Fault (List APIVoteData))
    (scrape : String → ScrapedVoteDetails) (c : Int) (ln stt : String) (fuel : Nat) :
    ∀ (sessions : List Nat) (acc : List VoteRecord) (r : Nat) (L : List VoteRecord),
      1 ≤ r →
      collectCongressLoop fetch scrape c ln stt none fuel sessions acc =
        some (.ok L) →
      collectCongressLoop fetch scrape c ln stt (some r) fuel sessions acc =
        some (.ok (L.take (max acc.length r))) := by
  intro sessions
  induction sessions with
  | nil =>
    intro acc r L hr h
    simp only [collectCongressLoop, Option.some.injEq, Except.ok.injEq] at h
    subst h
    simp only [collectCongressLoop, Option.some.injEq, Except.ok.injEq]
    rw [List.take_of_length_le (Nat.le_max_left _ _)]
  | cons s rest ih =>
    intro acc r L hr h
    rw [collectCongressLoop] at h
    simp only [capReached_none, Bool.false_eq_true, if_false, remaining_none] at h
    rw [collectCongressLoop]
    split at h
    · exact Option.noConfusion h
    · simp at h
    · next sv heq =>
      have htakeL : L.take (acc ++ sv).length = acc ++ sv :=
        collectCongressLoop_none_take fetch scrape c ln stt fuel rest (acc ++ sv) L h
      by_cases hcap : capReached (some r) acc.length = true
      · rw [if_pos hcap]
        have hrn : r ≤ acc.length := by
          simp only [capReached, Bool.and_eq_true, decide_eq_true_eq] at hcap
          exact hcap.2
        rw [Nat.max_eq_left hrn, take_prefix_of_take_append L acc sv htakeL]
      · rw [if_neg hcap]
        have hnr : acc.length < r := by
          simp only [capReached, Bool.and_eq_true, decide_eq_true_eq,
            not_and, not_le] at hcap
          exact hcap (by omega)
        have hrem : remaining (some r) acc.length = some (r - acc.length) := by
          unfold remaining
          dsimp only
          rw [if_neg (by omega : ¬ r = 0)]
        rw [hrem]
        have hsC := collectSessionLoop_cap fetch scrape c s ln stt fuel
          ⟨[], 1, 0⟩ (r - acc.length) sv (by omega) heq
        have hsC2 : collectSessionLoop fetch scrape c s ln stt
            (some (r - acc.length)) fuel ⟨[], 1, 0⟩ =
            some (.ok (sv.take (r - acc.length))) := by
          simpa using hsC
        rw [hsC2]
        dsimp only
        by_cases hord : r - acc.length ≤ sv.length
        · have hlen2 : (acc ++ sv.take (r - acc.length)).length = r := by
            simp only [List.length_append, List.length_take]
            omega
          have hstop := collectCongressLoop_stop fetch scrape c ln stt (some r)
            fuel rest (acc ++ sv.take (r - acc.length))
            (by simp only [capReached, hlen2, Bool.and_eq_true, decide_eq_true_eq]
                omega)
          rw [hstop, Nat.max_eq_right (le_of_lt hnr),
            take_middle L acc sv r (by omega) hord htakeL]
        · push_neg at hord
          have heqsv : sv.take (r - acc.length) = sv :=
            List.take_of_length_le (by omega)
          rw [heqsv]
          have h2 := ih (acc ++ sv) r L hr h
          rw [h2]
          have hmax : max (acc ++ sv).length r = max acc.length r := by
            simp only [List.length_append]
            omega
          rw [hmax]

/-- Capping an uncapped full congress run cuts its list to the cap. -/
theorem collect_congress_votes_cap
    (fetch : Int → Nat → Nat → Except Fault (List APIVoteData))
    (scrape : String → ScrapedVoteDetails) (c : Int) (ln stt : String)
    (fuel r : Nat) (cv : List VoteRecord) (hr : 1 ≤ r)
    (h : collect_congress_votes fetch scrape c ln stt none fuel = some (.ok cv)) :
    collect_congress_votes fetch scrape c ln stt (some r) fuel =
      some (.ok (cv.take r)) := by
  unfold collect_congress_votes at *
  have h2 := collectCongressLoop_cap fetch scrape c ln stt fuel [1, 2] [] r cv hr h
  simpa using h2

/-- The accumulator of an uncapped top level run is a prefix of its
final list. -/
theorem collectAllLoop_none_take
    (fetch : Int → Nat → Nat → Except Fault (List APIVoteData))
    (scrape : String → ScrapedVoteDetails) (ln stt : String) (fuel : Nat) :
    ∀ (congresses : List Int) (acc L : List VoteRecord),
      collectAllLoop fetch scrape ln stt none fuel congresses acc =
        some (.ok L) →
      L.take acc.length = acc := by
  intro congresses
  induction congresses with
  | nil =>
    intro acc L h
    simp only [collectAllLoop, Option.some.injEq, Except.ok.injEq] at h
    subst h
    exact List.take_length _
  | cons cg rest ih =>
    intro acc L h
    rw [collectAllLoop] at h
    simp only [capReached_none, Bool.false_eq_true, if_false, remaining_none] at h
    split at h
    · exact Option.noConfusion h
    · simp at h
    · next cv heq =>
      exact take_prefix_of_take_append L acc cv (ih (acc ++ cv) L h)

/-- Capping an uncapped top level run that finishes with list L cuts it
to the cap, counted from the accumulator already held. -/
theorem collectAllLoop_cap
    (fetch : Int → Nat → Nat → Except Fault (List APIVoteData))
    (scrape : String → ScrapedVoteDetails) (ln stt : String) (fuel : Nat) :
    ∀ (congresses : List Int) (acc : List VoteRecord) (m : Nat) (L : List VoteRecord),
      1 ≤ m →
      collectAllLoop fetch scrape ln stt none fuel congresses acc =
        some (.ok L) →
      collectAllLoop fetch scrape ln stt (some m) fuel congresses acc =
        some (.ok (L.take (max acc.length m))) := by
  intro congresses
  induction congresses with
  | nil =>
    intro acc m L hm h
    simp only [collectAllLoop, Option.some.injEq, Except.ok.injEq] at h
    subst h
    simp only [collectAllLoop, Option.some.injEq, Except.ok.injEq]
    rw [List.take_of_length_le (Nat.le_max_left _ _)]
  | cons cg rest ih =>
    intro acc m L hm h
    rw [collectAllLoop] at h
    simp only [capReached_none, Bool.false_eq_true, if_false, remaining_none] at h
    rw [collectAllLoop]
    split at h
    · exact Option.noConfusion h
    · simp at h
    · next cv heq =>
      have htakeL : L.take (acc ++ cv).length = acc ++ cv :=
        collectAllLoop_none_take fetch scrape ln stt fuel rest (acc ++ cv) L h
      by_cases hcap : capReached (some m) acc.length = true
      · rw [if_pos hcap]
        have hmn : m ≤ acc.length := by
          simp only [capReached, Bool.and_eq_true, decide_eq_true_eq] at hcap
          exact hcap.2
        rw [Nat.max_eq_left hmn, take_prefix_of_take_append L acc cv htakeL]
      · rw [if_neg hcap]
        have hnm : acc.length < m := by
          simp only [capReached, Bool.and_eq_true, decide_eq_true_eq,
            not_and, not_le] at hcap
          exact hcap (by omega)
        have hrem : remaining (some m) acc.length = some (m - acc.length) := by
          unfold remaining
          dsimp only
          rw [if_neg (by omega : ¬ m = 0)]
        rw [hrem]
        have hcC := collect_congress_votes_cap fetch scrape cg ln stt fuel
          (m - acc.length) cv (by omega) heq
        rw [hcC]
        dsimp only
        by_cases hord : m - acc.length ≤ cv.length
        · have hlen2 : (acc ++ cv.take (m - acc.length)).length = m := by
            simp only [List.length_append, List.length_take]
            omega
          have hcap2 : capReached (some m)
              (acc ++ cv.take (m - acc.length)).length = true := by
            simp only [capReached, hlen2, Bool.and_eq_true, decide_eq_true_eq]
            omega
          rw [if_pos hcap2]
          unfold truncateTo
          dsimp only
          rw [List.take_of_length_le (le_of_eq hlen2),
            Nat.max_eq_right (le_of_lt hnm),
            take_middle L acc cv m (by omega) hord htakeL]
        · push_neg at hord
          have heqcv : cv.take (m - acc.length) = cv :=
            List.take_of_length_le (by omega)
          rw [heqcv]
          have hcap3 : capReached (some m) (acc ++ cv).length = false := by
            simp only [capReached, List.length_append]
            simp only [Bool.and_eq_false_iff, decide_eq_false_iff_not, not_le]
            right
            omega
          rw [hcap3]
          simp only [Bool.false_eq_true, if_false]
          rw [ih (acc ++ cv) m L hm h]
          have hmax : max (acc ++ cv).length m = max acc.length m := by
            simp only [List.length_append]
            omega
          rw [hmax]

/-! Claim theorems. -/

/-- Claim C2: when the uncapped collection finishes with at least m
matching finished records, the collection capped at a positive m returns
exactly the first m of them; the cap cuts inside a session, a congress
pass or the congress list wherever it is reached, as the cut lemmas for
each level show collectively. -/
theorem C2_cap_exact
    (fetch : Int → Nat → Nat → Except Fault (List APIVoteData))
    (scrape : String → ScrapedVoteDetails) (crit : MemberSearchCriteria)
    (m fuel : Nat) (L : List VoteRecord) (hm : 1 ≤ m)
    (hN : collect_member_votes fetch scrape crit none fuel = some (.ok L))
    (hlen : m ≤ L.length) :
    collect_member_votes fetch scrape crit (some m) fuel =
      some (.ok (L.take m)) ∧ (L.take m).length = m := by
  constructor
  · unfold collect_member_votes at hN ⊢
    have h2 := collectAllLoop_cap fetch scrape crit.last_name crit.state fuel
      crit.congress_numbers [] m L hm hN
    simpa using h2
  · simp only [List.length_take]
    omega

/-- Witness for claim C2: the sample run collects four records uncapped,
and capped at three returns exactly the first three. -/
theorem C2_cap_exact_witness :
    collect_member_votes wFetch wScrape wCrit (some 3) 20 =
      some (.ok (wList.take 3)) ∧ (wList.take 3).length = 3 :=
  C2_cap_exact wFetch wScrape wCrit 3 20 wList (by omega) rfl (by decide)

/-- Claim C3, evaluation at the failing input.  The derivation is the
pure embedded function; on the evs URL with roll number 55 both the
scraper derivation and the orchestrator derivation zero-pad the roll
number to three digits and produce Votes/2025055, whereas the docstring
examples in web_scraper._generate_rcv_url,
vote_collector._generate_roll_call_url and models.VoteRecord, and the
claim itself, state Votes/202555. -/
theorem C3_roll_url_padding :
    generate_rcv_url "https://clerk.house.gov/evs/2025/roll55.xml" =
      .ok "https://clerk.house.gov/Votes/2025055" ∧
    generate_roll_call_url "https://clerk.house.gov/evs/2025/roll55.xml" =
      "https://clerk.house.gov/Votes/2025055" ∧
    ("https://clerk.house.gov/Votes/2025055" : String) ≠
      "https://clerk.house.gov/Votes/202555" :=
  ⟨rfl, rfl, by decide⟩

/-- Claim C9, evaluation at the failing inputs.  The constructor checks
the state length before stripping and uppercasing, so the two character
inputs with whitespace are accepted and the stored state has length one,
or zero, not two. -/
theorem C9_state_validation_order :
    mkMemberSearchCriteria "Doe" "c " [118] =
      .ok { last_name := "Doe", state := "C", congress_numbers := [118] } ∧
    ("C" : String).length = 1 ∧
    mkMemberSearchCriteria "Doe" "  " [118] =
      .ok { last_name := "Doe", state := "", congress_numbers := [118] } :=
  ⟨rfl, rfl, rfl⟩

/-- Claim C4, counterexample at the claim input itself.  On the
non-matching URL the orchestrator derivation used for the finished record
display URL does not raise: it returns the source URL unchanged, while
the strict raising derivation is the scraper one. -/
theorem C4_counterexample :
    generate_roll_call_url "https://host/evs/2025/roll55.xml" =
      "https://host/evs/2025/roll55.xml" ∧
    generate_rcv_url "https://host/evs/2025/roll55.xml" =
      .error (.validationError "Invalid source data URL format") :=
  ⟨rfl, rfl⟩

/-- Claim C4 as amended: for every input the pattern does not match, the
orchestrator derivation falls back to the unchanged source URL and never
faults, the strict scraper derivation raises a validation fault, and the
enrichment path swallows that fault into empty details with the sentinel
date. -/
theorem C4_amended (u : String) (h : searchEvs u.data = none) :
    generate_roll_call_url u = u ∧
    (∃ m, generate_rcv_url u = .error (.validationError m)) ∧
    ∀ fetchPage, extract_vote_details fetchPage u =
      { question := "", bill_title := "", date := "1900-01-01" } := by
  have hgen : ∃ m, generate_rcv_url u = .error (.validationError m) := by
    by_cases hu : u = ""
    · exact ⟨"Source data URL must be a non-empty string",
        by unfold generate_rcv_url; rw [if_pos hu]⟩
    · exact ⟨"Invalid source data URL format",
        by unfold generate_rcv_url; rw [if_neg hu, h]⟩
  refine ⟨?_, hgen, ?_⟩
  · unfold generate_roll_call_url
    rw [h]
  · intro fetchPage
    obtain ⟨m, hm⟩ := hgen
    unfold extract_vote_details
    rw [hm]

/-- Witness for the amended claim C4 at the claim input. -/
theorem C4_amended_witness :
    generate_roll_call_url "https://host/evs/2025/roll55.xml" =
      "https://host/evs/2025/roll55.xml" ∧
    (∃ m, generate_rcv_url "https://host/evs/2025/roll55.xml" =
      .error (.validationError m)) ∧
    ∀ fetchPage, extract_vote_details fetchPage "https://host/evs/2025/roll55.xml" =
      { question := "", bill_title := "", date := "1900-01-01" } :=
  C4_amended "https://host/evs/2025/roll55.xml" (by decide)

/-- Claim C10: a zero cap is falsy in every cap test and is passed down
as no cap, so collection with max_votes zero runs exactly like collection
with no cap and returns every matching record. -/
theorem C10_zero_cap_disables (fetch : Int → Nat → Nat → Except Fault (List APIVoteData))
    (scrape : String → ScrapedVoteDetails) (crit : MemberSearchCriteria)
    (fuel : Nat) :
    collect_member_votes fetch scrape crit (some 0) fuel =
      collect_member_votes fetch scrape crit none fuel := by
  unfold collect_member_votes
  exact collectAllLoop_zero fetch scrape crit.last_name crit.state fuel
    crit.congress_numbers []

/-- Claim C1: one attempt of the session scan, in every case the loop can
meet while it is still scanning.  Any APIError fault, the not found code
404 or any other status, bumps the consecutive failure counter and the
vote number by one and terminates the scan exactly when the counter
reaches five, so a single not found fault never terminates it; a
successful fetch resets the counter to zero and advances the vote number
whether or not a member matched. -/
theorem C1_scan_step
    (fetch : Int → Nat → Nat → Except Fault (List APIVoteData))
    (scrape : String → ScrapedVoteDetails) (congress : Int) (session : Nat)
    (ln stt : String) (maxVotes : Option Nat) (fuel : Nat) (st : SessState)
    (hlt : st.failures < 5)
    (hcap : capReached maxVotes st.votes.length = false) :
    (∀ code, fetch congress session st.voteNumber = .error (.apiError code) →
      collectSessionLoop fetch scrape congress session ln stt maxVotes (fuel + 1) st =
        if 5 ≤ st.failures + 1 then some (.ok st.votes)
        else collectSessionLoop fetch scrape congress session ln stt maxVotes fuel
          ⟨st.votes, st.voteNumber + 1, st.failures + 1⟩) ∧
    (∀ records, fetch congress session st.voteNumber = .ok records →
      findMemberVote records ln stt = none →
      collectSessionLoop fetch scrape congress session ln stt maxVotes (fuel + 1) st =
        collectSessionLoop fetch scrape congress session ln stt maxVotes fuel
          ⟨st.votes, st.voteNumber + 1, 0⟩) ∧
    (∀ records mv rec, fetch congress session st.voteNumber = .ok records →
      findMemberVote records ln stt = some mv →
      mergeRecord scrape mv = .ok rec →
      collectSessionLoop fetch scrape congress session ln stt maxVotes (fuel + 1) st =
        collectSessionLoop fetch scrape congress session ln stt maxVotes fuel
          ⟨st.votes ++ [rec], st.voteNumber + 1, 0⟩) := by
  have h5 : ¬ 5 ≤ st.failures := by omega
  refine ⟨?_, ?_, ?_⟩
  · intro code hf
    simp only [collectSessionLoop, if_neg h5, hcap, Bool.false_eq_true, if_false, hf]
  · intro records hf hfind
    simp only [collectSessionLoop, if_neg h5, hcap, Bool.false_eq_true, if_false,
      hf, hfind]
  · intro records mv rec hf hfind hmerge
    simp only [collectSessionLoop, if_neg h5, hcap, Bool.false_eq_true, if_false,
      hf, hfind, hmerge]

/-- Witness for claim C1 at a concrete scanning state: a first not found
fault continues the scan with the counter at one. -/
theorem C1_scan_step_witness :
    collectSessionLoop (fun _ _ _ => .error (.apiError (some 404))) wScrape
      118 1 "Doe" "TX" none 7 ⟨[], 1, 0⟩ =
      if 5 ≤ 0 + 1 then some (.ok ([] : List VoteRecord))
      else collectSessionLoop (fun _ _ _ => .error (.apiError (some 404))) wScrape
        118 1 "Doe" "TX" none 6 ⟨[], 2, 0 + 1⟩ :=
  (C1_scan_step (fun _ _ _ => .error (.apiError (some 404))) wScrape
    118 1 "Doe" "TX" none 6 ⟨[], 1, 0⟩ (by decide) rfl).1 (some 404) rfl

/-- Claim C7: in the loop body that builds the finished record from a
matched member record, the stored question is the raw API question when
the scraped question is empty and the scraped question otherwise; the
record so built is exactly the one appended by the scan step. -/
theorem C7_question_precedence
    (fetch : Int → Nat → Nat → Except Fault (List APIVoteData))
    (scrape : String → ScrapedVoteDetails) (congress : Int) (session : Nat)
    (ln stt : String) (maxVotes : Option Nat) (fuel : Nat) (st : SessState)
    (records : List APIVoteData) (mv : APIVoteData) (rec : VoteRecord)
    (hlt : st.failures < 5)
    (hcap : capReached maxVotes st.votes.length = false)
    (hf : fetch congress session st.voteNumber = .ok records)
    (hfind : findMemberVote records ln stt = some mv)
    (hmerge : mergeRecord scrape mv = .ok rec) :
    collectSessionLoop fetch scrape congress session ln stt maxVotes (fuel + 1) st =
      collectSessionLoop fetch scrape congress session ln stt maxVotes fuel
        ⟨st.votes ++ [rec], st.voteNumber + 1, 0⟩ ∧
    ((scrape mv.source_data_url).question = "" → rec.question = mv.vote_question) ∧
    ((scrape mv.source_data_url).question ≠ "" →
      rec.question = (scrape mv.source_data_url).question) := by
  have h5 : ¬ 5 ≤ st.failures := by omega
  have hq : rec.question = if (scrape mv.source_data_url).question = ""
      then mv.vote_question else (scrape mv.source_data_url).question := by
    simp only [mergeRecord] at hmerge
    exact mkVoteRecord_ok_question _ _ _ _ _ _ _ _ _ hmerge
  refine ⟨?_, ?_, ?_⟩
  · simp only [collectSessionLoop, if_neg h5, hcap, Bool.false_eq_true, if_false,
      hf, hfind, hmerge]
  · intro he
    rw [hq, if_pos he]
  · intro he
    rw [hq, if_neg he]

/-- Witness for claim C7 at concrete data: the scrape oracle found no
question, so the finished record keeps the API question. -/
theorem C7_question_precedence_witness :
    collectSessionLoop wFetch wScrape 118 1 "Doe" "TX" none 8 ⟨[], 1, 0⟩ =
      collectSessionLoop wFetch wScrape 118 1 "Doe" "TX" none 7
        ⟨[] ++ [wRecord], 1 + 1, 0⟩ ∧
    ((wScrape wMember.source_data_url).question = "" →
      wRecord.question = wMember.vote_question) ∧
    ((wScrape wMember.source_data_url).question ≠ "" →
      wRecord.question = (wScrape wMember.source_data_url).question) :=
  C7_question_precedence wFetch wScrape 118 1 "Doe" "TX" none 7 ⟨[], 1, 0⟩
    [wMember] wMember wRecord (by decide) rfl rfl rfl rfl

/-- Claim C8: a fault from the fetcher that is not an APIError, such as
the ValidationError raised for a malformed response payload, is not
caught by the scan loop: it aborts the session, the congress pass and the
whole collection call, whose result is that single fault with no list, so
the records accumulated before the fault are discarded. -/
theorem C8_failure_atomicity
    (fetch : Int → Nat → Nat → Except Fault (List APIVoteData))
    (scrape : String → ScrapedVoteDetails) (crit : MemberSearchCriteria)
    (maxVotes : Option Nat) (fuel : Nat) (f : Fault) (c : Int)
    (rest : List Int) (acc : List VoteRecord)
    (hcs : crit.congress_numbers = c :: rest)
    (hf : fetch c 1 1 = .error f)
    (hnotapi : ∀ code, f ≠ .apiError code)
    (hcap : capReached maxVotes acc.length = false) :
    collectAllLoop fetch scrape crit.last_name crit.state maxVotes (fuel + 1)
      (c :: rest) acc = some (.error f) ∧
    collect_member_votes fetch scrape crit maxVotes (fuel + 1) = some (.error f) := by
  have hsess : ∀ mv2 : Option Nat,
      collectSessionLoop fetch scrape c 1 crit.last_name crit.state mv2
        (fuel + 1) ⟨[], 1, 0⟩ = some (.error f) := by
    intro mv2
    cases f with
    | apiError code => exact absurd rfl (hnotapi code)
    | validationError m =>
      simp only [collectSessionLoop, List.length_nil, capReached_zero,
        Bool.false_eq_true, if_false, hf]
      norm_num
    | scrapingError m =>
      simp only [collectSessionLoop, List.length_nil, capReached_zero,
        Bool.false_eq_true, if_false, hf]
      norm_num
  have hcong : ∀ mv2 : Option Nat,
      collect_congress_votes fetch scrape c crit.last_name crit.state mv2
        (fuel + 1) = some (.error f) := by
    intro mv2
    simp only [collect_congress_votes, collectCongressLoop, capReached_zero,
      Bool.false_eq_true, if_false, List.length_nil, hsess (remaining mv2 0)]
  constructor
  · simp only [collectAllLoop, hcap, Bool.false_eq_true, if_false,
      hcong (remaining maxVotes acc.length)]
  · unfold collect_member_votes
    rw [hcs]
    simp only [collectAllLoop, capReached_zero, Bool.false_eq_true, if_false,
      List.length_nil, hcong (remaining maxVotes 0)]

/-- Witness for claim C8: a malformed payload fault on the very first
fetch aborts the whole collection, discarding a nonempty accumulator. -/
theorem C8_failure_atomicity_witness :
    collectAllLoop (fun _ _ _ => .error (.validationError "API response must be a dictionary"))
      wScrape wCrit.last_name wCrit.state none 6 [118] [wRecord] =
      some (.error (.validationError "API response must be a dictionary")) ∧
    collect_member_votes (fun _ _ _ => .error (.validationError "API response must be a dictionary"))
      wScrape wCrit none 6 =
      some (.error (.validationError "API response must be a dictionary")) :=
  C8_failure_atomicity
    (fun _ _ _ => .error (.validationError "API response must be a dictionary"))
    wScrape wCrit none 5 (.validationError "API response must be a dictionary")
    118 [] [wRecord] rfl rfl (fun _ h => Fault.noConfusion h) rfl

/-- Claim C5, counterexample.  The text 32-Jan-2025 3-Feb-2025 contains
the date 3-Feb-2025 in an accepted format, as the second conjunct shows,
yet extraction returns the empty string, because the leftmost candidate
of pattern zero fails calendar validation and the loop moves to the next
pattern, never to a later candidate of the same pattern; the enrichment
level then substitutes the sentinel. -/
theorem C5_counterexample_pattern_skip :
    extract_date "32-Jan-2025 3-Feb-2025" = "" ∧
    extract_date "3-Feb-2025" = "2025-02-03" ∧
    (extract_vote_details (fun _ => .ok "32-Jan-2025 3-Feb-2025")
      "https://clerk.house.gov/evs/2025/roll1.xml").date = "1900-01-01" :=
  ⟨rfl, rfl, rfl⟩

/-- Claim C5 as amended: for every input that is exactly a date in one of
the three accepted formats and passes the calendar validation, extraction
returns the zero padded canonical string built from the same components;
extraction is idempotent on every nonempty output; a pattern zero
candidate with an unknown month or an invalid calendar date makes the
extractor move to the next pattern, abandoning later candidates of the
same pattern; and a page with no valid date yields the sentinel at the
enrichment level, never a fault. -/
theorem C5_amended_date_normalization :
    (∀ d mon y mm : String, d.data.length = 1 ∨ d.data.length = 2 →
      (∀ c ∈ d.data, c.isDigit = true) → mon.data.length = 3 →
      (∀ c ∈ mon.data, c.isAlpha = true) → y.data.length = 4 →
      (∀ c ∈ y.data, c.isDigit = true) → monthMap (pyLower mon) = some mm →
      strptime_valid (y ++ "-" ++ mm ++ "-" ++ zfill d 2) = true →
      extract_date (d ++ "-" ++ mon ++ "-" ++ y) =
        y ++ "-" ++ mm ++ "-" ++ zfill d 2) ∧
    (∀ m d y : String, m.data.length = 1 ∨ m.data.length = 2 →
      (∀ c ∈ m.data, c.isDigit = true) → d.data.length = 1 ∨ d.data.length = 2 →
      (∀ c ∈ d.data, c.isDigit = true) → y.data.length = 4 →
      (∀ c ∈ y.data, c.isDigit = true) →
      strptime_valid (y ++ "-" ++ zfill m 2 ++ "-" ++ zfill d 2) = true →
      extract_date (m ++ "/" ++ d ++ "/" ++ y) =
        y ++ "-" ++ zfill m 2 ++ "-" ++ zfill d 2) ∧
    (∀ y m d : String, y.data.length = 4 → (∀ c ∈ y.data, c.isDigit = true) →
      m.data.length = 1 ∨ m.data.length = 2 → (∀ c ∈ m.data, c.isDigit = true) →
      d.data.length = 1 ∨ d.data.length = 2 → (∀ c ∈ d.data, c.isDigit = true) →
      strptime_valid (y ++ "-" ++ zfill m 2 ++ "-" ++ zfill d 2) = true →
      extract_date (y ++ "-" ++ m ++ "-" ++ d) =
        y ++ "-" ++ zfill m 2 ++ "-" ++ zfill d 2) ∧
    (∀ s, extract_date s ≠ "" → extract_date (extract_date s) = extract_date s) ∧
    (∀ html d mon y mm, searchDMonY html.data = some (d, mon, y) →
      monthMap (pyLower mon) = some mm →
      strptime_valid (y ++ "-" ++ mm ++ "-" ++ zfill d 2) = false →
      extract_date html = extract_date_p1 html) ∧
    (∀ fetchPage url u page, generate_rcv_url url = .ok u →
      fetchPage u = .ok page → extract_date page = "" →
      (extract_vote_details fetchPage url).date = "1900-01-01") := by
  refine ⟨?_, ?_, ?_, extract_date_idem, ?_, ?_⟩
  · intro d mon y mm hd hdd hmon hma hy hyd hmap hval
    exact extract_date_dmony d mon y mm hd hdd hmon hma hy hyd hmap hval
  · intro m d y hm hmd hd hdd hy hyd hval
    exact extract_date_mdy m d y hm hmd hd hdd hy hyd hval
  · intro y m d hy hyd hm hmd hd hdd hval
    exact extract_date_ymd y m d hy hyd hm hmd hd hdd hval
  · intro html d mon y mm hsearch hmap hval
    unfold extract_date
    rw [hsearch]
    dsimp only
    rw [hmap]
    dsimp only
    rw [if_neg (by simp [hval])]
  · intro fetchPage url u page hgu hfp hde
    unfold extract_vote_details
    rw [hgu]
    dsimp only
    rw [hfp]
    dsimp only
    rw [hde]
    rfl

/-- Witness for the amended claim C5 at concrete dates in each of the
three formats, plus idempotence, pattern fallthrough and the enrichment
sentinel at concrete inputs. -/
theorem C5_amended_witness :
    extract_date ("3" ++ "-" ++ "Mar" ++ "-" ++ "2025") =
      "2025" ++ "-" ++ "03" ++ "-" ++ zfill "3" 2 ∧
    extract_date ("3" ++ "/" ++ "15" ++ "/" ++ "2025") =
      "2025" ++ "-" ++ zfill "3" 2 ++ "-" ++ zfill "15" 2 ∧
    extract_date ("2025" ++ "-" ++ "3" ++ "-" ++ "5") =
      "2025" ++ "-" ++ zfill "3" 2 ++ "-" ++ zfill "5" 2 ∧
    extract_date (extract_date "15-mar-2025") = extract_date "15-mar-2025" ∧
    extract_date "31-Feb-2025 and 3/15/2025" = extract_date_p1 "31-Feb-2025 and 3/15/2025" ∧
    (extract_vote_details (fun _ => .ok "no dates here")
      "https://clerk.house.gov/evs/2025/roll2.xml").date = "1900-01-01" := by
  obtain ⟨h1, h2, h3, h4, h5, h6⟩ := C5_amended_date_normalization
  refine ⟨?_, ?_, ?_, ?_, ?_, ?_⟩
  · exact h1 "3" "Mar" "2025" "03" (by decide) (by decide) (by decide) (by decide)
      (by decide) (by decide) rfl (by decide)
  · exact h2 "3" "15" "2025" (by decide) (by decide) (by decide) (by decide)
      (by decide) (by decide) (by decide)
  · exact h3 "2025" "3" "5" (by decide) (by decide) (by decide) (by decide)
      (by decide) (by decide) (by decide)
  · exact h4 "15-mar-2025" (by decide)
  · exact h5 "31-Feb-2025 and 3/15/2025" "31" "Feb" "2025" "02" (by decide) rfl
      (by decide)
  · exact h6 (fun _ => .ok "no dates here")
      "https://clerk.house.gov/evs/2025/roll2.xml"
      "https://clerk.house.gov/Votes/2025002" "no dates here" rfl rfl (by decide)

/-- Claim C6: the enrich operation is total over any page fetch oracle
and any source reference.  Its result always satisfies the validating
constructor of ScrapedVoteDetails, so building the value never faults; a
URL derivation fault or a transport fault degrades to empty fields with
the sentinel date; and when the page is fetched but no date pattern
matches, the date field is the sentinel. -/
theorem C6_enrich_total (fetchPage : String → Except Fault String) (url : String) :
    mkScrapedVoteDetails (extract_vote_details fetchPage url).question
      (extract_vote_details fetchPage url).bill_title
      (extract_vote_details fetchPage url).date =
      .ok (extract_vote_details fetchPage url) ∧
    (∀ e, generate_rcv_url url = .error e →
      extract_vote_details fetchPage url =
        { question := "", bill_title := "", date := "1900-01-01" }) ∧
    (∀ u e, generate_rcv_url url = .ok u → fetchPage u = .error e →
      extract_vote_details fetchPage url =
        { question := "", bill_title := "", date := "1900-01-01" }) ∧
    (∀ u page, generate_rcv_url url = .ok u → fetchPage u = .ok page →
      extract_date page = "" →
      (extract_vote_details fetchPage url).date = "1900-01-01") := by
  refine ⟨?_, ?_, ?_, ?_⟩
  · unfold extract_vote_details
    cases hg : generate_rcv_url url with
    | error e => rfl
    | ok u =>
      dsimp only
      cases hfp : fetchPage u with
      | error e => rfl
      | ok page =>
        dsimp only
        unfold mkScrapedVoteDetails
        by_cases hd : extract_date page = ""
        · simp [hd]
          decide
        · have hshape : dateShapeOK (extract_date page) = true :=
            strptime_valid_shape _ (extract_date_valid page hd)
          simp [if_neg hd, hshape]
  · intro e hg
    unfold extract_vote_details
    rw [hg]
  · intro u e hgu hfe
    unfold extract_vote_details
    rw [hgu]
    dsimp only
    rw [hfe]
  · intro u page hgu hfp hde
    unfold extract_vote_details
    rw [hgu]
    dsimp only
    rw [hfp]
    dsimp only
    rw [hde]
    rfl

/-- Witness for claim C6: a transport fault on the derived page URL
degrades to empty details, and the result always rebuilds through the
validating constructor. -/
theorem C6_enrich_total_witness :
    mkScrapedVoteDetails
      (extract_vote_details (fun _ => .error (.scrapingError "net"))
        "https://clerk.house.gov/evs/2025/roll55.xml").question
      (extract_vote_details (fun _ => .error (.scrapingError "net"))
        "https://clerk.house.gov/evs/2025/roll55.xml").bill_title
      (extract_vote_details (fun _ => .error (.scrapingError "net"))
        "https://clerk.house.gov/evs/2025/roll55.xml").date =
      .ok (extract_vote_details (fun _ => .error (.scrapingError "net"))
        "https://clerk.house.gov/evs/2025/roll55.xml") ∧
    extract_vote_details (fun _ => .error (.scrapingError "net"))
      "https://clerk.house.gov/evs/2025/roll55.xml" =
      { question := "", bill_title := "", date := "1900-01-01" } :=
  ⟨(C6_enrich_total (fun _ => .error (.scrapingError "net"))
      "https://clerk.house.gov/evs/2025/roll55.xml").1,
   (C6_enrich_total (fun _ => .error (.scrapingError "net"))
      "https://clerk.house.gov/evs/2025/roll55.xml").2.2.1
      "https://clerk.house.gov/Votes/2025055" (.scrapingError "net") rfl rfl⟩

end RCV
